import Mathlib

/-!
# Verification of the TuringMachine syntax-highlighter tokenizers

Shallow embedding of the tokenization/classification engine of the
`salog0d/TuringMachine` repository (files `turingPython.py`,
`turingPythonParalel.py`, `turingSQL.py`, `turingRacket.py`).

Conventions of the embedding:

* Python strings become `List Char`; all character-class predicates
  (`isalpha`, `isdigit`, `isalnum`, `isspace`, `upper`, `lower`, `strip`)
  are modelled by their ASCII behaviour, which is what every input
  relevant to the claims exercises.
* Python `while` loops over an index into an immutable string become
  fuel-indexed structural recursion.  The fuel handed to every loop is
  the length of the scanned text; since each loop iteration advances the
  scan index by at least one and stops at the end of the text, this fuel
  always suffices, so the fuel-free Python loop and the fuelled Lean
  function agree.
* The acceptance behaviour of the CPython built-ins `int(s, 0)`,
  `int(s)` and `float(s)` (used by the `_es_numero` helpers through
  `try`/`except ValueError`) is modelled explicitly for ASCII input in
  the `PyStd` namespace.
* Runtime-only metadata (process ids, CPU core numbers, wall-clock
  timings carried by the multicore module) is outside the embedding:
  tokens are modelled by their `tipo`/`valor`/`posicion`/`valido` fields,
  which are exactly the fields the specification's properties mention.
-/

/-- Python slice `l[a:b]` (for `a ≤ b`; clamped at the end of the list). -/
def pySlice {α : Type} (l : List α) (a b : Nat) : List α :=
  (l.drop a).take (b - a)

theorem pySlice_append_drop {α : Type} (l : List α) {a b : Nat} (hab : a ≤ b) :
    pySlice l a b ++ l.drop b = l.drop a := by
  have hb : l.drop b = (l.drop a).drop (b - a) := by
    rw [List.drop_drop]
    congr 1
    omega
  rw [pySlice, hb, List.take_append_drop]

theorem pySlice_one {α : Type} (l : List α) {i : Nat} (h : i < l.length) :
    pySlice l i (i + 1) = [l[i]] := by
  rw [pySlice, List.drop_eq_getElem_cons h, show i + 1 - i = 1 from by omega]
  rfl


namespace PyStd

/-- ASCII whitespace as recognised by Python `str.strip` / `str.isspace`. -/
def isSpaceChar (c : Char) : Bool :=
  c = ' ' || c = '\t' || c = '\n' || c = '\r' || c = '\x0b' || c = '\x0c'

/-- Python `str.strip()` (ASCII whitespace). -/
def strip (l : List Char) : List Char :=
  ((l.dropWhile isSpaceChar).reverse.dropWhile isSpaceChar).reverse

/-- Python `str.rstrip()` (ASCII whitespace). -/
def rstrip (l : List Char) : List Char :=
  (l.reverse.dropWhile isSpaceChar).reverse

/-- Python `str.isspace()`: non-empty and all whitespace. -/
def isspace (l : List Char) : Bool :=
  !l.isEmpty && l.all isSpaceChar

/-- Strip one optional leading sign, as the CPython number parsers do. -/
def dropSign : List Char → List Char
  | '+' :: r => r
  | '-' :: r => r
  | r => r

/-- Continuation of a digit run in which single underscores may stand
strictly between digits (CPython numeric-literal strings). -/
def digRunAux (isD : Char → Bool) : List Char → Bool
  | [] => true
  | ['_'] => false
  | '_' :: c :: r => isD c && digRunAux isD r
  | c :: r => isD c && digRunAux isD r

/-- A non-empty digit run with single underscores between digits. -/
def digRun (isD : Char → Bool) : List Char → Bool
  | [] => false
  | c :: r => isD c && digRunAux isD r

def isHexDigit (c : Char) : Bool :=
  c.isDigit || ('a' ≤ c && c ≤ 'f') || ('A' ≤ c && c ≤ 'F')

def isOctDigit (c : Char) : Bool := '0' ≤ c && c ≤ '7'

def isBinDigit (c : Char) : Bool := c = '0' || c = '1'

/-- After a radix prefix, one optional underscore may precede the digits. -/
def digRunAfterRadix (isD : Char → Bool) : List Char → Bool
  | '_' :: r => digRun isD r
  | r => digRun isD r

/-- Whether CPython `int(s, 0)` (automatic radix detection) accepts `s`. -/
def intAccepts0 (s : List Char) : Bool :=
  match dropSign (strip s) with
  | '0' :: c :: r =>
    if c = 'x' || c = 'X' then digRunAfterRadix isHexDigit r
    else if c = 'o' || c = 'O' then digRunAfterRadix isOctDigit r
    else if c = 'b' || c = 'B' then digRunAfterRadix isBinDigit r
    else digRun (fun d => d = '0') ('0' :: c :: r)
  | ['0'] => true
  | s2 => digRun Char.isDigit s2

/-- Whether CPython `int(s)` (base 10) accepts `s`. -/
def intAccepts10 (s : List Char) : Bool :=
  digRun Char.isDigit (dropSign (strip s))

/-- Mantissa of a CPython float literal: `d+ | d+ . d* | . d+`. -/
def floatMantissa (s : List Char) : Bool :=
  let a := s.takeWhile (fun c => c ≠ '.')
  match s.dropWhile (fun c => c ≠ '.') with
  | [] => digRun Char.isDigit a
  | _ :: c =>
    if a.isEmpty then digRun Char.isDigit c
    else digRun Char.isDigit a && (c.isEmpty || digRun Char.isDigit c)

def toLowerList (s : List Char) : List Char := s.map Char.toLower

/-- Whether CPython `float(s)` accepts `s` (ASCII model, including the
`inf`/`infinity`/`nan` word forms). -/
def floatAccepts (s : List Char) : Bool :=
  let s2 := dropSign (strip s)
  let low := toLowerList s2
  if low = ['i', 'n', 'f'] || low = ['i', 'n', 'f', 'i', 'n', 'i', 't', 'y'] ||
      low = ['n', 'a', 'n'] then true
  else
    let m := s2.takeWhile (fun c => c ≠ 'e' && c ≠ 'E')
    match s2.dropWhile (fun c => c ≠ 'e' && c ≠ 'E') with
    | [] => floatMantissa m
    | _ :: rest => floatMantissa m && digRun Char.isDigit (dropSign rest)

end PyStd

namespace TuringPython

/-- `TipoToken` of `turingPython.py` (also used unchanged by
`turingPythonParalel.py`). -/
inductive TipoToken where
  | KEYWORD | STRING | NUMBER | COMMENT | OPERATOR
  | IDENTIFIER | DELIMITER | WHITESPACE | UNKNOWN
  deriving DecidableEq, Repr

/-- `Token` dataclass: `tipo`, `valor`, `posicion`, `valido`.  The extra
`proceso_id`/`cpu_core` fields of the multicore variant are runtime
metadata (actual OS pids and core numbers) outside the embedding. -/
structure Token where
  tipo : TipoToken
  valor : List Char
  posicion : Nat
  valido : Bool
  deriving DecidableEq, Repr

/-- `EstadoMaquina` of `turingPython.py`. -/
inductive EstadoMaquina where
  | INICIAL | KEYWORD_CANDIDATO | KEYWORD_CONFIRMADO
  | STRING_INICIADO | STRING_ESCAPE | STRING_COMPLETO
  | NUMERO_INICIADO | NUMERO_DECIMAL | NUMERO_COMPLETO
  | COMENTARIO_INICIADO | COMENTARIO_COMPLETO
  | OPERADOR_INICIADO | OPERADOR_COMPLETO
  | IDENTIFICADOR_INICIADO | IDENTIFICADOR_COMPLETO
  | DELIMITADOR_DETECTADO | ESPACIO_DETECTADO
  | NO_ACEPTACION | ACEPTACION
  deriving DecidableEq, Repr

/-- The four transition actions of the machine. -/
inductive Accion where
  | LEER | ACEPTAR | ACEPTAR_RETROCEDER | RECHAZAR
  deriving DecidableEq, Repr

/-- Python keyword set (`self.keywords`). -/
def keywords : List (List Char) :=
  ["False".toList, "None".toList, "True".toList, "and".toList, "as".toList,
   "assert".toList, "break".toList, "class".toList, "continue".toList,
   "def".toList, "del".toList, "elif".toList, "else".toList, "except".toList,
   "finally".toList, "for".toList, "from".toList, "global".toList,
   "if".toList, "import".toList, "in".toList, "is".toList, "lambda".toList,
   "nonlocal".toList, "not".toList, "or".toList, "pass".toList,
   "raise".toList, "return".toList, "try".toList, "while".toList,
   "with".toList, "yield".toList, "async".toList, "await".toList]

/-- Python operator set (`self.operadores`). -/
def operadores : List (List Char) :=
  ["+".toList, "-".toList, "*".toList, "/".toList, "//".toList, "%".toList,
   "**".toList, "=".toList, "+=".toList, "-=".toList, "*=".toList,
   "/=".toList, "//=".toList, "%=".toList, "**=".toList, "==".toList,
   "!=".toList, "<".toList, ">".toList, "<=".toList, ">=".toList,
   "<>".toList, "&".toList, "|".toList, "^".toList, "~".toList,
   "<<".toList, ">>".toList, "&=".toList, "|=".toList, "^=".toList,
   "<<=".toList, ">>=".toList, "!".toList, "@".toList, "@=".toList]

/-- Delimiter set (`self.delimitadores`). -/
def delimitadores : List Char :=
  ['(', ')', '[', ']', '{', '}', ',', ':', ';', '.']

/-- The valid-character alphabet (`self.alfabeto`): ASCII letters, digits
and the listed special characters. -/
def alfabeto (c : Char) : Bool :=
  c.isAlphanum ||
    ['_', '.', '"', '\'', '#', '\t', '\n', '\r', '+', '-', '*', '/', '<',
     '>', '=', '!', '(', ')', '[', ']', '{', '}', ',', ':', ';', ' '].contains c

/-- `es_caracter_valido`. -/
def es_caracter_valido (c : Char) : Bool := alfabeto c

/-- Characters that start an operator in both the scanner and the DFA. -/
def opChars : List Char :=
  ['+', '-', '*', '/', '<', '>', '=', '!', '&', '|', '^', '~']

/-- `transicion`: the DFA transition function.  The mutable
`self.estado_actual` / `self.buffer_token` become explicit arguments; note
that at every call site (`_procesar_con_maquina_turing`) the buffer
already contains the character currently looked at, exactly as in the
Python code, which appends `caracter` to the buffer before transitioning. -/
def transicion (estado : EstadoMaquina) (buffer : List Char) (c : Char) :
    EstadoMaquina × Accion :=
  if !es_caracter_valido c then (.NO_ACEPTACION, .RECHAZAR)
  else match estado with
  | .INICIAL =>
    if c.isAlpha || c = '_' then (.KEYWORD_CANDIDATO, .LEER)
    else if c.isDigit then (.NUMERO_INICIADO, .LEER)
    else if c = '"' || c = '\'' then (.STRING_INICIADO, .LEER)
    else if c = '#' then (.COMENTARIO_INICIADO, .LEER)
    else if opChars.contains c then (.OPERADOR_INICIADO, .LEER)
    else if delimitadores.contains c then (.DELIMITADOR_DETECTADO, .ACEPTAR)
    else if [' ', '\t', '\n', '\r'].contains c then (.ESPACIO_DETECTADO, .ACEPTAR)
    else (.NO_ACEPTACION, .RECHAZAR)
  | .KEYWORD_CANDIDATO =>
    if c.isAlphanum || c = '_' then (.KEYWORD_CANDIDATO, .LEER)
    else if keywords.contains buffer then (.KEYWORD_CONFIRMADO, .ACEPTAR_RETROCEDER)
    else (.IDENTIFICADOR_COMPLETO, .ACEPTAR_RETROCEDER)
  | .NUMERO_INICIADO =>
    if c.isDigit then (.NUMERO_INICIADO, .LEER)
    else if c = '.' then (.NUMERO_DECIMAL, .LEER)
    else (.NUMERO_COMPLETO, .ACEPTAR_RETROCEDER)
  | .NUMERO_DECIMAL =>
    if c.isDigit then (.NUMERO_DECIMAL, .LEER)
    else (.NUMERO_COMPLETO, .ACEPTAR_RETROCEDER)
  | .STRING_INICIADO =>
    if c = '\\' then (.STRING_ESCAPE, .LEER)
    else if c = '"' || c = '\'' then (.STRING_COMPLETO, .ACEPTAR)
    else (.STRING_INICIADO, .LEER)
  | .STRING_ESCAPE => (.STRING_INICIADO, .LEER)
  | .COMENTARIO_INICIADO =>
    if c = '\n' || c = '\r' then (.COMENTARIO_COMPLETO, .ACEPTAR_RETROCEDER)
    else (.COMENTARIO_INICIADO, .LEER)
  | .OPERADOR_INICIADO =>
    if operadores.contains (buffer ++ [c]) then (.OPERADOR_INICIADO, .LEER)
    else if operadores.contains buffer then (.OPERADOR_COMPLETO, .ACEPTAR_RETROCEDER)
    else (.NO_ACEPTACION, .RECHAZAR)
  | _ => (.NO_ACEPTACION, .RECHAZAR)

/-- The `elif` chain of `_procesar_con_maquina_turing` that maps an
accepting state reached with `ACEPTAR`/`ACEPTAR_RETROCEDER` to a token
kind; states not listed there fall through to the `break`. -/
def clasifica_estado_aceptacion : EstadoMaquina → Option TipoToken
  | .KEYWORD_CONFIRMADO => some .KEYWORD
  | .IDENTIFICADOR_COMPLETO => some .IDENTIFIER
  | .NUMERO_COMPLETO => some .NUMBER
  | .NUMERO_INICIADO => some .NUMBER
  | .STRING_COMPLETO => some .STRING
  | .COMENTARIO_COMPLETO => some .COMMENT
  | .OPERADOR_COMPLETO => some .OPERATOR
  | .DELIMITADOR_DETECTADO => some .DELIMITER
  | .ESPACIO_DETECTADO => some .WHITESPACE
  | _ => none

/-- The post-loop classification of `_procesar_con_maquina_turing`,
keyed on the machine state left in `self.estado_actual`. -/
def clasifica_estado_final (estado : EstadoMaquina) (token_texto : List Char)
    (posicion : Nat) : Token :=
  if estado = .KEYWORD_CANDIDATO then
    if keywords.contains token_texto then ⟨.KEYWORD, token_texto, posicion, true⟩
    else ⟨.IDENTIFIER, token_texto, posicion, true⟩
  else if estado = .NUMERO_INICIADO || estado = .NUMERO_DECIMAL then
    ⟨.NUMBER, token_texto, posicion, true⟩
  else ⟨.UNKNOWN, token_texto, posicion, false⟩

/-- The character loop of `_procesar_con_maquina_turing`: `chars` is the
not-yet-consumed part of `token_texto + " "`, `buffer` is
`self.buffer_token`, `estado` is `self.estado_actual` (only updated on
`LEER`, exactly as in the source). -/
def maquina_loop (token_texto : List Char) (posicion : Nat) :
    List Char → List Char → EstadoMaquina → Token
  | [], _, estado => clasifica_estado_final estado token_texto posicion
  | c :: resto, buffer, estado =>
    let buffer2 := buffer ++ [c]
    let r := transicion estado buffer2 c
    match r.2 with
    | .RECHAZAR => ⟨.UNKNOWN, token_texto, posicion, false⟩
    | .LEER => maquina_loop token_texto posicion resto buffer2 r.1
    | _ =>
      match clasifica_estado_aceptacion r.1 with
      | some tipo => ⟨tipo, token_texto, posicion, true⟩
      | none => clasifica_estado_final estado token_texto posicion

/-- `_procesar_con_maquina_turing`: run the token text plus the sentinel
blank through the DFA. -/
def procesar_con_maquina_turing (token_texto : List Char) (posicion : Nat) : Token :=
  maquina_loop token_texto posicion (token_texto ++ [' ']) [] .INICIAL

/-- `_es_numero`: `float` is tried when the text contains `.` or an
`e`/`E`, otherwise `int(texto, 0)`. -/
def es_numero (texto : List Char) : Bool :=
  if texto.contains '.' || texto.contains 'e' || texto.contains 'E' then
    PyStd.floatAccepts texto
  else PyStd.intAccepts0 texto

/-- `_es_identificador_valido`. -/
def es_identificador_valido : List Char → Bool
  | [] => false
  | c :: r => (c.isAlpha || c = '_') && r.all (fun d => d.isAlphanum || d = '_')

/-- Membership of a token text in the delimiter set (whose members are
all one-character strings). -/
def es_delimitador_token : List Char → Bool
  | [c] => delimitadores.contains c
  | _ => false

/-- The ordered fast-path predicate chain of `procesar_token_individual`
(the disjunction of steps 1-8); when it is `false` the sequential
classifier falls back to the DFA and the multicore worker classifier
returns UNKNOWN directly. -/
def fast_path_predicado (token_texto : List Char) : Bool :=
  ((['"'].isPrefixOf token_texto && ['"'].isSuffixOf token_texto) ||
   (['\''].isPrefixOf token_texto && ['\''].isSuffixOf token_texto) ||
   (['f', '"'].isPrefixOf token_texto && ['"'].isSuffixOf token_texto) ||
   (['f', '\''].isPrefixOf token_texto && ['\''].isSuffixOf token_texto)) ||
  ['#'].isPrefixOf token_texto ||
  es_numero token_texto ||
  operadores.contains token_texto ||
  es_delimitador_token token_texto ||
  keywords.contains token_texto ||
  PyStd.isspace token_texto ||
  es_identificador_valido token_texto

/-- `procesar_token_individual` of `turingPython.py`: the ordered direct
checks, with the Turing-machine replay as fallback. -/
def procesar_token_individual (token_texto : List Char) (posicion : Nat) : Token :=
  if (['"'].isPrefixOf token_texto && ['"'].isSuffixOf token_texto) ||
     (['\''].isPrefixOf token_texto && ['\''].isSuffixOf token_texto) ||
     (['f', '"'].isPrefixOf token_texto && ['"'].isSuffixOf token_texto) ||
     (['f', '\''].isPrefixOf token_texto && ['\''].isSuffixOf token_texto) then
    ⟨.STRING, token_texto, posicion, true⟩
  else if ['#'].isPrefixOf token_texto then ⟨.COMMENT, token_texto, posicion, true⟩
  else if es_numero token_texto then ⟨.NUMBER, token_texto, posicion, true⟩
  else if operadores.contains token_texto then ⟨.OPERATOR, token_texto, posicion, true⟩
  else if es_delimitador_token token_texto then
    ⟨.DELIMITER, token_texto, posicion, true⟩
  else if keywords.contains token_texto then ⟨.KEYWORD, token_texto, posicion, true⟩
  else if PyStd.isspace token_texto then ⟨.WHITESPACE, token_texto, posicion, true⟩
  else if es_identificador_valido token_texto then
    ⟨.IDENTIFIER, token_texto, posicion, true⟩
  else procesar_con_maquina_turing token_texto posicion

/-- The inner `while` loop pattern `while i < len(texto) and p(texto[i]):
i += 1`, fuelled by the text length. -/
def skip_run (p : Char → Bool) (texto : List Char) : Nat → Nat → Nat
  | 0, i => i
  | fuel + 1, i =>
    if h : i < texto.length then
      if p texto[i] then skip_run p texto fuel (i + 1) else i
    else i

/-- The string-scanning loop: advance until the (unescaped) closing
quote; `\` skips the next character when one exists. -/
def scan_string_end (texto : List Char) (quote : Char) : Nat → Nat → Nat
  | 0, i => i
  | fuel + 1, i =>
    if h : i < texto.length then
      if texto[i] = quote then i
      else if texto[i] = '\\' then
        if i + 1 < texto.length then scan_string_end texto quote fuel (i + 2)
        else scan_string_end texto quote fuel (i + 1)
      else scan_string_end texto quote fuel (i + 1)
    else i

/-- End position of a string lexeme whose opening quote stands at `i`:
scan from `i + 1` for the matching quote and include it when present
(unterminated strings run to end-of-input). -/
def fin_string (texto : List Char) (quote : Char) (i : Nat) : Nat :=
  let j0 := scan_string_end texto quote texto.length (i + 1)
  if j0 < texto.length then j0 + 1 else j0

/-- End position of an f-string lexeme whose `f` stands at `i` (the
quote at `i + 1`): scan from `i + 2`. -/
def fin_fstring (texto : List Char) (quote : Char) (i : Nat) : Nat :=
  let j0 := scan_string_end texto quote texto.length (i + 2)
  if j0 < texto.length then j0 + 1 else j0

/-- End position of a decimal number lexeme starting at `i`: the
digits-and-dots run, then an optional `e`/`E` exponent with optional
sign. -/
def fin_numero (texto : List Char) (i : Nat) : Nat :=
  let j1 := skip_run (fun d => d.isDigit || d = '.') texto texto.length (i + 1)
  if decide (j1 < texto.length) &&
      (texto.getD j1 ' ' = 'e' || texto.getD j1 ' ' = 'E') then
    let k :=
      if decide (j1 + 1 < texto.length) &&
          (texto.getD (j1 + 1) ' ' = '+' || texto.getD (j1 + 1) ' ' = '-') then
        j1 + 2
      else j1 + 1
    skip_run Char.isDigit texto texto.length k
  else j1

/-- The two-character operator list of the scanner. -/
def operadores_dobles : List (List Char) :=
  ["==".toList, "!=".toList, "<=".toList, ">=".toList, "+=".toList,
   "-=".toList, "*=".toList, "/=".toList, "//".toList, "**".toList,
   "<<".toList, ">>".toList, "&=".toList, "|=".toList, "^=".toList,
   "<>".toList]

/-- The three-character operator list of the scanner. -/
def operadores_triples : List (List Char) :=
  ["//=".toList, "**=".toList, "<<=".toList, ">>=".toList]

/-- The body of the scanner's `while i < len(texto)` loop
(`_separar_tokens`), one constructor application per Python `continue`.
Out-of-bounds lookahead (always guarded by a length test in the same
condition, exactly as in the short-circuiting Python conjunctions) is
expressed with `List.getD`. -/
def separar_tokens_aux (texto : List Char) : Nat → Nat → List (List Char × Nat)
  | 0, _ => []
  | fuel + 1, i =>
    if h : i < texto.length then
      if texto[i] = ' ' || texto[i] = '\t' then
        (pySlice texto i (skip_run (fun d => d = ' ' || d = '\t') texto texto.length (i + 1)), i) ::
          separar_tokens_aux texto fuel (skip_run (fun d => d = ' ' || d = '\t') texto texto.length (i + 1))
      else if texto[i] = '\n' || texto[i] = '\r' then
        ([texto[i]], i) :: separar_tokens_aux texto fuel (i + 1)
      else if texto[i] = '"' || texto[i] = '\'' then
        (pySlice texto i (fin_string texto texto[i] i), i) ::
          separar_tokens_aux texto fuel (fin_string texto texto[i] i)
      else if texto[i] = 'f' && decide (i + 1 < texto.length) &&
          (texto.getD (i + 1) ' ' = '"' || texto.getD (i + 1) ' ' = '\'') then
        (pySlice texto i (fin_fstring texto (texto.getD (i + 1) ' ') i), i) ::
          separar_tokens_aux texto fuel (fin_fstring texto (texto.getD (i + 1) ' ') i)
      else if texto[i] = '#' then
        (pySlice texto i (skip_run (fun d => !(d = '\n' || d = '\r')) texto texto.length (i + 1)), i) ::
          separar_tokens_aux texto fuel (skip_run (fun d => !(d = '\n' || d = '\r')) texto texto.length (i + 1))
      else if delimitadores.contains texto[i] then
        ([texto[i]], i) :: separar_tokens_aux texto fuel (i + 1)
      else if opChars.contains texto[i] then
        if decide (i + 1 < texto.length) &&
            operadores_dobles.contains (pySlice texto i (i + 2)) then
          (pySlice texto i (i + 2), i) :: separar_tokens_aux texto fuel (i + 2)
        else if decide (i + 1 < texto.length) && decide (i + 2 < texto.length) &&
            operadores_triples.contains (pySlice texto i (i + 3)) then
          (pySlice texto i (i + 3), i) :: separar_tokens_aux texto fuel (i + 3)
        else ([texto[i]], i) :: separar_tokens_aux texto fuel (i + 1)
      else if (texto[i]).isDigit ||
          (texto[i] = '.' && decide (i + 1 < texto.length) && (texto.getD (i + 1) ' ').isDigit) then
        if decide (i + 1 < texto.length) && texto[i] = '0' &&
            ['x', 'X', 'o', 'O', 'b', 'B'].contains (texto.getD (i + 1) ' ') then
          (pySlice texto i (skip_run Char.isAlphanum texto texto.length (i + 2)), i) ::
            separar_tokens_aux texto fuel (skip_run Char.isAlphanum texto texto.length (i + 2))
        else
          (pySlice texto i (fin_numero texto i), i) ::
            separar_tokens_aux texto fuel (fin_numero texto i)
      else if (texto[i]).isAlpha || texto[i] = '_' then
        (pySlice texto i (skip_run (fun d => d.isAlphanum || d = '_') texto texto.length (i + 1)), i) ::
          separar_tokens_aux texto fuel (skip_run (fun d => d.isAlphanum || d = '_') texto texto.length (i + 1))
      else
        ([texto[i]], i) :: separar_tokens_aux texto fuel (i + 1)
    else []

/-- `_separar_tokens`: the full scan from position 0. -/
def separar_tokens (texto : List Char) : List (List Char × Nat) :=
  separar_tokens_aux texto texto.length 0

/-- The per-lexeme step of `tokenizar_archivo`: purely-whitespace (or
empty) lexemes bypass the classifier. -/
def tokenizar_paso (lx : List Char × Nat) : List Token :=
  if (PyStd.strip lx.1).isEmpty then
    if lx.1.isEmpty then [] else [⟨.WHITESPACE, lx.1, lx.2, true⟩]
  else [procesar_token_individual lx.1 lx.2]

/-- `tokenizar_archivo`: scan, then classify each lexeme in order. -/
def tokenizar_archivo (contenido : List Char) : List Token :=
  ((separar_tokens contenido).map tokenizar_paso).flatten

end TuringPython

namespace TuringParalel

open TuringPython (TipoToken Token)

/-- The multicore module re-declares `keywords` as a `frozenset` with the
same thirty-five members as `turingPython.py`; the embedding shares the
list. -/
def keywords : List (List Char) := TuringPython.keywords

/-- Identical member-for-member to the sequential `operadores` set. -/
def operadores : List (List Char) := TuringPython.operadores

/-- Identical to the sequential `delimitadores` set. -/
def delimitadores : List Char := TuringPython.delimitadores

/-- Identical to the sequential alphabet. -/
def alfabeto (c : Char) : Bool := TuringPython.alfabeto c

/-- `TuringMachineInstance._es_numero`, character-identical to the
sequential `_es_numero`. -/
def es_numero (texto : List Char) : Bool := TuringPython.es_numero texto

/-- `TuringMachineInstance._es_identificador_valido`, character-identical
to the sequential version. -/
def es_identificador_valido (texto : List Char) : Bool :=
  TuringPython.es_identificador_valido texto

/-- `TuringMachineInstance.procesar_token_individual`: the same ordered
direct checks as the sequential classifier, but with NO state-machine
fallback -- any lexeme matching none of them is returned directly as an
UNKNOWN token with `valido=False`. -/
def procesar_token_individual (token_texto : List Char) (posicion : Nat) : Token :=
  if (['"'].isPrefixOf token_texto && ['"'].isSuffixOf token_texto) ||
     (['\''].isPrefixOf token_texto && ['\''].isSuffixOf token_texto) ||
     (['f', '"'].isPrefixOf token_texto && ['"'].isSuffixOf token_texto) ||
     (['f', '\''].isPrefixOf token_texto && ['\''].isSuffixOf token_texto) then
    ⟨.STRING, token_texto, posicion, true⟩
  else if ['#'].isPrefixOf token_texto then ⟨.COMMENT, token_texto, posicion, true⟩
  else if es_numero token_texto then ⟨.NUMBER, token_texto, posicion, true⟩
  else if operadores.contains token_texto then ⟨.OPERATOR, token_texto, posicion, true⟩
  else if TuringPython.es_delimitador_token token_texto then
    ⟨.DELIMITER, token_texto, posicion, true⟩
  else if keywords.contains token_texto then ⟨.KEYWORD, token_texto, posicion, true⟩
  else if PyStd.isspace token_texto then ⟨.WHITESPACE, token_texto, posicion, true⟩
  else if es_identificador_valido token_texto then
    ⟨.IDENTIFIER, token_texto, posicion, true⟩
  else ⟨.UNKNOWN, token_texto, posicion, false⟩

/-- `TuringMachineMulticore._separar_tokens` is character-identical (up
to two local variable names) to `TuringMachine._separar_tokens`; the
embedding shares the definition. -/
def separar_tokens (texto : List Char) : List (List Char × Nat) :=
  TuringPython.separar_tokens texto

/-- The `ChunkProcesamiento` dataclass. -/
structure ChunkProcesamiento where
  tokens_texto : List (List Char × Nat)
  chunk_id : Nat
  inicio_global : Nat
  fin_global : Nat
  deriving DecidableEq, Repr

/-- `_dividir_en_chunks`: fewer lexemes than processes degrades to one
lexeme per chunk; otherwise `range(num_procesos)` start offsets of width
`chunk_size = max(max(100, total // (num_procesos * 2)), total // num_procesos)`,
the last index stretched to the end, indices starting past the end
dropped. -/
def dividir_en_chunks (tokens_texto : List (List Char × Nat)) (num_procesos : Nat) :
    List ChunkProcesamiento :=
  if tokens_texto.length < num_procesos then
    tokens_texto.enum.map (fun p =>
      ⟨[p.2], p.1, p.2.2, p.2.2 + p.2.1.length⟩)
  else
    let min_chunk_size := max 100 (tokens_texto.length / (num_procesos * 2))
    let chunk_size := max min_chunk_size (tokens_texto.length / num_procesos)
    (List.range num_procesos).filterMap (fun i =>
      let inicio := i * chunk_size
      let fin :=
        if i = num_procesos - 1 then tokens_texto.length
        else min ((i + 1) * chunk_size) tokens_texto.length
      if inicio < tokens_texto.length then
        let chunk_tokens := pySlice tokens_texto inicio fin
        some ⟨chunk_tokens, i, (chunk_tokens.headD ([], 0)).2,
              (chunk_tokens.getLastD ([], 0)).2 + (chunk_tokens.getLastD ([], 0)).1.length⟩
      else none)

/-- `procesar_chunk_multicore` (the worker function): classify each
lexeme of the chunk in order and return the chunk id with the token
list.  The wall-clock statistics and pid/core stamps are runtime
metadata outside the embedding. -/
def procesar_chunk_multicore (chunk : ChunkProcesamiento) : Nat × List Token :=
  (chunk.chunk_id,
   chunk.tokens_texto.map (fun lx => procesar_token_individual lx.1 lx.2))

/-- The `as_completed` collection loop of `tokenizar_archivo_multicore`:
each successful future stores its token list into the slot indexed by
the chunk id of the result; a future that raises is caught, logged and
skipped (its slot keeps the initial `None`). -/
def colocar_resultados (slots : List (Option (List Token)))
    (resultados : List (Except String (Nat × List Token))) :
    List (Option (List Token)) :=
  resultados.foldl (fun acc r =>
    match r with
    | .ok (cid, toks) => acc.set cid (some toks)
    | .error _ => acc) slots

/-- Paso 5 of `tokenizar_archivo_multicore`: concatenate the slots in
chunk-id order, skipping `None` (and empty) entries, which is what the
truthiness test `if tokens_chunk:` does. -/
def concatenar_slots (slots : List (Option (List Token))) : List Token :=
  slots.foldl (fun acc o =>
    match o with
    | some ts => if ts.isEmpty then acc else acc ++ ts
    | none => acc) []

/-- Slot collection plus reassembly for a given arrival order of worker
results. -/
def recopilar (num_chunks : Nat)
    (resultados : List (Except String (Nat × List Token))) : List Token :=
  concatenar_slots (colocar_resultados (List.replicate num_chunks none) resultados)

/-- `tokenizar_archivo_multicore`: scan sequentially, partition into
chunks, classify every chunk, collect the worker results in the
(nondeterministic) arrival order `llegada` and reassemble by chunk id.
The faithful run is any `llegada` that is a permutation of the chunk
list. -/
def tokenizar_archivo_multicore (contenido : List Char) (num_procesos : Nat)
    (llegada : List ChunkProcesamiento) : List Token :=
  let chunks := dividir_en_chunks (separar_tokens contenido) num_procesos
  recopilar chunks.length
    (llegada.map (fun ch => Except.ok (procesar_chunk_multicore ch)))

end TuringParalel

namespace TuringParalel

/-- The chunk id written by a worker result, `none` for a faulted one
(a proof-side accessor, not a function of the source). -/
def okId : Except String (Nat × List TuringPython.Token) → Option Nat
  | .ok (cid, _) => some cid
  | .error _ => none

end TuringParalel

namespace TuringSQL

/-- `TipoToken` of `turingSQL.py` (adds `VARIABLE`, `FUNCTION`,
`DATATYPE` to the shared kinds). -/
inductive TipoToken where
  | KEYWORD | STRING | NUMBER | COMMENT | OPERATOR
  | IDENTIFIER | DELIMITER | WHITESPACE | VARIABLE | FUNCTION
  | DATATYPE | UNKNOWN
  deriving DecidableEq, Repr

/-- `Token` dataclass of `turingSQL.py`. -/
structure Token where
  tipo : TipoToken
  valor : List Char
  posicion : Nat
  valido : Bool
  deriving DecidableEq, Repr

/-- `EstadoMaquina` of `turingSQL.py`. -/
inductive EstadoMaquina where
  | INICIAL | KEYWORD_CANDIDATO | KEYWORD_CONFIRMADO
  | STRING_INICIADO | STRING_ESCAPE | STRING_COMPLETO
  | NUMERO_INICIADO | NUMERO_DECIMAL | NUMERO_COMPLETO
  | COMENTARIO_LINEA_INICIADO | COMENTARIO_BLOQUE_INICIADO
  | COMENTARIO_BLOQUE_ASTERISCO | COMENTARIO_COMPLETO
  | OPERADOR_INICIADO | OPERADOR_COMPLETO
  | IDENTIFICADOR_INICIADO | IDENTIFICADOR_COMPLETO
  | DELIMITADOR_DETECTADO | ESPACIO_DETECTADO
  | VARIABLE_INICIADA | VARIABLE_COMPLETA
  | NO_ACEPTACION | ACEPTACION
  deriving DecidableEq, Repr

open TuringPython (Accion)

/-- The backquote character of the SQL alphabet, string openers and the
DFA, written by code point. -/
def backtick : Char := Char.ofNat 96

/-- SQL keyword set (`self.keywords`), all-uppercase as in the source. -/
def keywords : List (List Char) :=
  ["SELECT".toList, "INSERT".toList, "UPDATE".toList, "DELETE".toList,
   "WITH".toList, "FROM".toList, "WHERE".toList, "JOIN".toList,
   "INNER".toList, "LEFT".toList, "RIGHT".toList, "FULL".toList,
   "OUTER".toList, "ON".toList, "USING".toList, "GROUP".toList,
   "BY".toList, "HAVING".toList, "ORDER".toList, "ASC".toList,
   "DESC".toList, "LIMIT".toList, "OFFSET".toList, "UNION".toList,
   "INTERSECT".toList, "EXCEPT".toList, "ALL".toList, "DISTINCT".toList,
   "INTO".toList, "VALUES".toList, "SET".toList,
   "CREATE".toList, "ALTER".toList, "DROP".toList, "TRUNCATE".toList,
   "RENAME".toList, "TABLE".toList, "VIEW".toList, "INDEX".toList,
   "SEQUENCE".toList, "SCHEMA".toList, "DATABASE".toList,
   "CONSTRAINT".toList, "PRIMARY".toList, "KEY".toList, "FOREIGN".toList,
   "REFERENCES".toList, "UNIQUE".toList, "CHECK".toList, "DEFAULT".toList,
   "AUTO_INCREMENT".toList, "ADD".toList, "MODIFY".toList, "CHANGE".toList,
   "COLUMN".toList,
   "GRANT".toList, "REVOKE".toList, "DENY".toList,
   "COMMIT".toList, "ROLLBACK".toList, "SAVEPOINT".toList, "BEGIN".toList,
   "START".toList, "TRANSACTION".toList,
   "INT".toList, "INTEGER".toList, "BIGINT".toList, "SMALLINT".toList,
   "TINYINT".toList, "DECIMAL".toList, "NUMERIC".toList, "FLOAT".toList,
   "DOUBLE".toList, "REAL".toList, "CHAR".toList, "VARCHAR".toList,
   "TEXT".toList, "NCHAR".toList, "NVARCHAR".toList, "DATE".toList,
   "TIME".toList, "DATETIME".toList, "TIMESTAMP".toList, "YEAR".toList,
   "BOOLEAN".toList, "BOOL".toList, "BIT".toList, "BINARY".toList,
   "VARBINARY".toList, "BLOB".toList, "CLOB".toList, "JSON".toList,
   "XML".toList,
   "AND".toList, "OR".toList, "NOT".toList, "IN".toList, "EXISTS".toList,
   "BETWEEN".toList, "LIKE".toList, "ILIKE".toList, "IS".toList,
   "NULL".toList, "TRUE".toList, "FALSE".toList,
   "COUNT".toList, "SUM".toList, "AVG".toList, "MIN".toList, "MAX".toList,
   "STDDEV".toList, "VARIANCE".toList,
   "OVER".toList, "PARTITION".toList, "ROWS".toList, "RANGE".toList,
   "UNBOUNDED".toList, "PRECEDING".toList, "FOLLOWING".toList,
   "CURRENT".toList, "ROW".toList,
   "CASE".toList, "WHEN".toList, "THEN".toList, "ELSE".toList,
   "END".toList, "IF".toList, "ELSEIF".toList, "ENDIF".toList,
   "AS".toList, "ALIAS".toList, "CAST".toList, "CONVERT".toList,
   "EXTRACT".toList, "SUBSTRING".toList, "TRIM".toList, "COALESCE".toList,
   "NULLIF".toList, "GREATEST".toList, "LEAST".toList, "EXPLAIN".toList,
   "DESCRIBE".toList, "SHOW".toList, "USE".toList, "CALL".toList,
   "PROCEDURE".toList, "FUNCTION".toList, "TRIGGER".toList,
   "CURSOR".toList, "DECLARE".toList, "OPEN".toList, "FETCH".toList,
   "CLOSE".toList, "WHILE".toList, "LOOP".toList, "FOR".toList,
   "REPEAT".toList, "UNTIL".toList, "LEAVE".toList, "ITERATE".toList,
   "HANDLER".toList, "CONDITION".toList, "SQLSTATE".toList,
   "SQLEXCEPTION".toList, "SQLWARNING".toList, "CONTINUE".toList,
   "EXIT".toList, "UNDO".toList]

/-- SQL function-name set (`self.functions`). -/
def functions : List (List Char) :=
  ["CONCAT".toList, "LENGTH".toList, "UPPER".toList, "LOWER".toList,
   "LTRIM".toList, "RTRIM".toList, "TRIM".toList, "SUBSTRING".toList,
   "SUBSTR".toList, "REPLACE".toList, "REVERSE".toList, "LEFT".toList,
   "RIGHT".toList, "CHARINDEX".toList, "POSITION".toList, "LOCATE".toList,
   "INSTR".toList, "LPAD".toList, "RPAD".toList,
   "NOW".toList, "CURDATE".toList, "CURTIME".toList, "TODAY".toList,
   "SYSDATE".toList, "GETDATE".toList, "DATEADD".toList, "DATEDIFF".toList,
   "DATEPART".toList, "YEAR".toList, "MONTH".toList, "DAY".toList,
   "HOUR".toList, "MINUTE".toList, "SECOND".toList, "DAYOFWEEK".toList,
   "DAYOFYEAR".toList, "WEEK".toList, "QUARTER".toList, "LAST_DAY".toList,
   "DATE_FORMAT".toList, "STR_TO_DATE".toList,
   "ABS".toList, "CEIL".toList, "CEILING".toList, "FLOOR".toList,
   "ROUND".toList, "TRUNCATE".toList, "TRUNC".toList, "MOD".toList,
   "POWER".toList, "POW".toList, "SQRT".toList, "EXP".toList,
   "LOG".toList, "LOG10".toList, "LN".toList, "SIN".toList, "COS".toList,
   "TAN".toList, "ASIN".toList, "ACOS".toList, "ATAN".toList,
   "ATAN2".toList, "DEGREES".toList, "RADIANS".toList, "PI".toList,
   "RAND".toList, "RANDOM".toList, "SIGN".toList,
   "CAST".toList, "CONVERT".toList, "TO_CHAR".toList, "TO_DATE".toList,
   "TO_NUMBER".toList, "FORMAT".toList, "PARSE".toList, "TRY_CAST".toList,
   "TRY_CONVERT".toList,
   "COALESCE".toList, "ISNULL".toList, "NULLIF".toList, "IIF".toList,
   "CHOOSE".toList, "GREATEST".toList, "LEAST".toList,
   "ROW_NUMBER".toList, "RANK".toList, "DENSE_RANK".toList,
   "NTILE".toList, "PERCENT_RANK".toList, "CUME_DIST".toList,
   "LAG".toList, "LEAD".toList, "FIRST_VALUE".toList, "LAST_VALUE".toList,
   "NTH_VALUE".toList]

/-- SQL operator set (`self.operadores`); note the absence of `==`. -/
def operadores : List (List Char) :=
  ["+".toList, "-".toList, "*".toList, "/".toList, "%".toList,
   "=".toList, "!=".toList, "<>".toList, "<".toList, ">".toList,
   "<=".toList, ">=".toList, "||".toList, "&&".toList, ":=".toList,
   "+=".toList, "-=".toList, "*=".toList, "/=".toList, "!".toList,
   "@".toList, "::".toList, "_".toList]

/-- SQL delimiter set (`self.delimitadores`); note that `:` is not a
member (although the scanner's delimiter character class includes it). -/
def delimitadores : List Char :=
  ['(', ')', '[', ']', '{', '}', ',', ';', '.']

/-- SQL datatype set (`self.datatypes`). -/
def datatypes : List (List Char) :=
  ["VARCHAR2".toList, "NVARCHAR2".toList, "CLOB".toList, "NCLOB".toList,
   "BLOB".toList, "BFILE".toList, "NUMBER".toList, "BINARY_FLOAT".toList,
   "BINARY_DOUBLE".toList, "TIMESTAMP".toList, "INTERVAL".toList,
   "RAW".toList, "LONG".toList, "ROWID".toList, "UROWID".toList,
   "MEDIUMINT".toList, "MEDIUMTEXT".toList, "LONGTEXT".toList,
   "TINYTEXT".toList, "ENUM".toList, "SET".toList, "GEOMETRY".toList,
   "POINT".toList, "LINESTRING".toList, "POLYGON".toList]

/-- The SQL alphabet (`self.alfabeto`): ASCII letters, digits and the
listed specials; unlike the Python profile it has no space character. -/
def alfabeto (c : Char) : Bool :=
  c.isAlphanum ||
    ['_', '.', '"', '\'', '@', '#', '\t', '\n', '\r', '+', '-', '*',
     '/', '<', '>', '=', '!', '(', ')', '[', ']', '{', '}', ',', ':',
     ';'].contains c ||
    c = backtick

/-- `es_caracter_valido`. -/
def es_caracter_valido (c : Char) : Bool := alfabeto c

/-- Characters that send the SQL DFA from `INICIAL` to
`OPERADOR_INICIADO` (the literal class `+-*/<>=!:|&%`). -/
def opChars : List Char :=
  ['+', '-', '*', '/', '<', '>', '=', '!', ':', '|', '&', '%']

/-- `transicion` of `turingSQL.py`; the second `elif caracter == '*'`
arm of `COMENTARIO_BLOQUE_INICIADO` is transcribed although it is
unreachable, exactly as in the source. -/
def transicion (estado : EstadoMaquina) (buffer : List Char) (c : Char) :
    EstadoMaquina × Accion :=
  if !es_caracter_valido c then (.NO_ACEPTACION, .RECHAZAR)
  else match estado with
  | .INICIAL =>
    if c.isAlpha || c = '_' then (.KEYWORD_CANDIDATO, .LEER)
    else if c.isDigit then (.NUMERO_INICIADO, .LEER)
    else if c = '"' || c = '\'' || c = backtick then (.STRING_INICIADO, .LEER)
    else if c = '-' then (.COMENTARIO_LINEA_INICIADO, .LEER)
    else if c = '/' then (.COMENTARIO_BLOQUE_INICIADO, .LEER)
    else if c = '@' then (.VARIABLE_INICIADA, .LEER)
    else if opChars.contains c then (.OPERADOR_INICIADO, .LEER)
    else if delimitadores.contains c then (.DELIMITADOR_DETECTADO, .ACEPTAR)
    else if [' ', '\t', '\n', '\r'].contains c then (.ESPACIO_DETECTADO, .ACEPTAR)
    else (.NO_ACEPTACION, .RECHAZAR)
  | .KEYWORD_CANDIDATO =>
    if c.isAlphanum || c = '_' then (.KEYWORD_CANDIDATO, .LEER)
    else if keywords.contains (buffer.map Char.toUpper) then
      (.KEYWORD_CONFIRMADO, .ACEPTAR_RETROCEDER)
    else (.IDENTIFICADOR_COMPLETO, .ACEPTAR_RETROCEDER)
  | .NUMERO_INICIADO =>
    if c.isDigit then (.NUMERO_INICIADO, .LEER)
    else if c = '.' then (.NUMERO_DECIMAL, .LEER)
    else (.NUMERO_COMPLETO, .ACEPTAR_RETROCEDER)
  | .NUMERO_DECIMAL =>
    if c.isDigit then (.NUMERO_DECIMAL, .LEER)
    else (.NUMERO_COMPLETO, .ACEPTAR_RETROCEDER)
  | .STRING_INICIADO =>
    if c = '\\' then (.STRING_ESCAPE, .LEER)
    else if c = '"' || c = '\'' || c = backtick then (.STRING_COMPLETO, .ACEPTAR)
    else (.STRING_INICIADO, .LEER)
  | .STRING_ESCAPE => (.STRING_INICIADO, .LEER)
  | .COMENTARIO_LINEA_INICIADO =>
    if c = '-' then (.COMENTARIO_LINEA_INICIADO, .LEER)
    else if c = '\n' || c = '\r' then (.COMENTARIO_COMPLETO, .ACEPTAR_RETROCEDER)
    else (.COMENTARIO_LINEA_INICIADO, .LEER)
  | .COMENTARIO_BLOQUE_INICIADO =>
    if c = '*' then (.COMENTARIO_BLOQUE_INICIADO, .LEER)
    else if c = '*' then (.COMENTARIO_BLOQUE_ASTERISCO, .LEER)
    else (.COMENTARIO_BLOQUE_INICIADO, .LEER)
  | .COMENTARIO_BLOQUE_ASTERISCO =>
    if c = '/' then (.COMENTARIO_COMPLETO, .ACEPTAR)
    else if c = '*' then (.COMENTARIO_BLOQUE_ASTERISCO, .LEER)
    else (.COMENTARIO_BLOQUE_INICIADO, .LEER)
  | .VARIABLE_INICIADA =>
    if c.isAlphanum || c = '_' then (.VARIABLE_INICIADA, .LEER)
    else (.VARIABLE_COMPLETA, .ACEPTAR_RETROCEDER)
  | .OPERADOR_INICIADO =>
    if operadores.contains (buffer ++ [c]) then (.OPERADOR_INICIADO, .LEER)
    else if operadores.contains buffer then (.OPERADOR_COMPLETO, .ACEPTAR_RETROCEDER)
    else (.NO_ACEPTACION, .RECHAZAR)
  | _ => (.NO_ACEPTACION, .RECHAZAR)

/-- The `elif` chain mapping an accepting state to a token kind inside
the DFA loop of `_procesar_con_maquina_turing`. -/
def clasifica_estado_aceptacion : EstadoMaquina → Option TipoToken
  | .KEYWORD_CONFIRMADO => some .KEYWORD
  | .IDENTIFICADOR_COMPLETO => some .IDENTIFIER
  | .NUMERO_COMPLETO => some .NUMBER
  | .NUMERO_INICIADO => some .NUMBER
  | .STRING_COMPLETO => some .STRING
  | .COMENTARIO_COMPLETO => some .COMMENT
  | .OPERADOR_COMPLETO => some .OPERATOR
  | .DELIMITADOR_DETECTADO => some .DELIMITER
  | .VARIABLE_COMPLETA => some .VARIABLE
  | .ESPACIO_DETECTADO => some .WHITESPACE
  | _ => none

/-- The post-loop classification of the SQL
`_procesar_con_maquina_turing`, keyed on the machine state. -/
def clasifica_estado_final (estado : EstadoMaquina) (token_texto : List Char)
    (posicion : Nat) : Token :=
  if estado = .KEYWORD_CANDIDATO then
    if keywords.contains (token_texto.map Char.toUpper) then
      ⟨.KEYWORD, token_texto, posicion, true⟩
    else if functions.contains (token_texto.map Char.toUpper) then
      ⟨.FUNCTION, token_texto, posicion, true⟩
    else if datatypes.contains (token_texto.map Char.toUpper) then
      ⟨.DATATYPE, token_texto, posicion, true⟩
    else ⟨.IDENTIFIER, token_texto, posicion, true⟩
  else if estado = .NUMERO_INICIADO || estado = .NUMERO_DECIMAL then
    ⟨.NUMBER, token_texto, posicion, true⟩
  else if estado = .VARIABLE_INICIADA then
    ⟨.VARIABLE, token_texto, posicion, true⟩
  else ⟨.UNKNOWN, token_texto, posicion, false⟩

/-- The character loop of the SQL `_procesar_con_maquina_turing` (same
shape as the Python one: buffer first appended, state only updated on
`LEER`). -/
def maquina_loop (token_texto : List Char) (posicion : Nat) :
    List Char → List Char → EstadoMaquina → Token
  | [], _, estado => clasifica_estado_final estado token_texto posicion
  | c :: resto, buffer, estado =>
    let buffer2 := buffer ++ [c]
    let r := transicion estado buffer2 c
    match r.2 with
    | .RECHAZAR => ⟨.UNKNOWN, token_texto, posicion, false⟩
    | .LEER => maquina_loop token_texto posicion resto buffer2 r.1
    | _ =>
      match clasifica_estado_aceptacion r.1 with
      | some tipo => ⟨tipo, token_texto, posicion, true⟩
      | none => clasifica_estado_final estado token_texto posicion

/-- `_procesar_con_maquina_turing` of `turingSQL.py`. -/
def procesar_con_maquina_turing (token_texto : List Char) (posicion : Nat) : Token :=
  maquina_loop token_texto posicion (token_texto ++ [' ']) [] .INICIAL

/-- `_es_numero` of `turingSQL.py`: `float` when the text contains a
dot, else base-10 `int` (no automatic radix here). -/
def es_numero (texto : List Char) : Bool :=
  if texto.contains '.' then PyStd.floatAccepts texto
  else PyStd.intAccepts10 texto

/-- `_es_identificador_valido` of `turingSQL.py`. -/
def es_identificador_valido : List Char → Bool
  | [] => false
  | c :: r => (c.isAlpha || c = '_') && r.all (fun d => d.isAlphanum || d = '_')

/-- Membership of a token text in the SQL delimiter set (one-character
members). -/
def es_delimitador_token : List Char → Bool
  | [c] => delimitadores.contains c
  | _ => false

/-- `procesar_token_individual` of `turingSQL.py`: twelve ordered steps;
keyword, function and datatype lookups first map the text to uppercase. -/
def procesar_token_individual (token_texto : List Char) (posicion : Nat) : Token :=
  if (['"'].isPrefixOf token_texto && ['"'].isSuffixOf token_texto) ||
     (['\''].isPrefixOf token_texto && ['\''].isSuffixOf token_texto) ||
     ([backtick].isPrefixOf token_texto && [backtick].isSuffixOf token_texto) then
    ⟨.STRING, token_texto, posicion, true⟩
  else if ['-', '-'].isPrefixOf token_texto ||
      (['/', '*'].isPrefixOf token_texto && ['*', '/'].isSuffixOf token_texto) then
    ⟨.COMMENT, token_texto, posicion, true⟩
  else if ['@'].isPrefixOf token_texto && decide (1 < token_texto.length) then
    ⟨.VARIABLE, token_texto, posicion, true⟩
  else if es_numero token_texto then ⟨.NUMBER, token_texto, posicion, true⟩
  else if operadores.contains token_texto then ⟨.OPERATOR, token_texto, posicion, true⟩
  else if es_delimitador_token token_texto then
    ⟨.DELIMITER, token_texto, posicion, true⟩
  else if keywords.contains (token_texto.map Char.toUpper) then
    ⟨.KEYWORD, token_texto, posicion, true⟩
  else if functions.contains (token_texto.map Char.toUpper) then
    ⟨.FUNCTION, token_texto, posicion, true⟩
  else if datatypes.contains (token_texto.map Char.toUpper) then
    ⟨.DATATYPE, token_texto, posicion, true⟩
  else if PyStd.isspace token_texto then ⟨.WHITESPACE, token_texto, posicion, true⟩
  else if es_identificador_valido token_texto then
    ⟨.IDENTIFIER, token_texto, posicion, true⟩
  else procesar_con_maquina_turing token_texto posicion

/-- The `while i < len(texto) - 1` search for the closing `*/` of a
block comment (note the off-by-one bound of the source: an unterminated
block comment stops one character before end-of-input). -/
def fin_bloque (texto : List Char) : Nat → Nat → Nat
  | 0, i => i
  | fuel + 1, i =>
    if decide (i < texto.length - 1) then
      if pySlice texto i (i + 2) = ['*', '/'] then i + 2
      else fin_bloque texto fuel (i + 1)
    else i

/-- End of a SQL number lexeme starting at `i`: the digits-and-dots run
(from `i` itself), then an optional `e`/`E` exponent with optional sign. -/
def fin_numero (texto : List Char) (i : Nat) : Nat :=
  let j1 := TuringPython.skip_run (fun d => d.isDigit || d = '.') texto texto.length i
  if decide (j1 < texto.length) &&
      (texto.getD j1 ' ' = 'e' || texto.getD j1 ' ' = 'E') then
    let k :=
      if decide (j1 + 1 < texto.length) &&
          (texto.getD (j1 + 1) ' ' = '+' || texto.getD (j1 + 1) ' ' = '-') then
        j1 + 2
      else j1 + 1
    TuringPython.skip_run Char.isDigit texto texto.length k
  else j1

/-- The scanner loop body of `_separar_tokens_sql`, one constructor
application per Python `continue`, fuelled by the text length. -/
def separar_tokens_sql_aux (texto : List Char) : Nat → Nat → List (List Char × Nat)
  | 0, _ => []
  | fuel + 1, i =>
    if h : i < texto.length then
      if texto[i] = ' ' || texto[i] = '\t' then
        (pySlice texto i (TuringPython.skip_run (fun d => d = ' ' || d = '\t') texto texto.length (i + 1)), i) ::
          separar_tokens_sql_aux texto fuel (TuringPython.skip_run (fun d => d = ' ' || d = '\t') texto texto.length (i + 1))
      else if texto[i] = '\n' || texto[i] = '\r' then
        ([texto[i]], i) :: separar_tokens_sql_aux texto fuel (i + 1)
      else if texto[i] = '"' || texto[i] = '\'' || texto[i] = backtick then
        (pySlice texto i (TuringPython.fin_string texto texto[i] i), i) ::
          separar_tokens_sql_aux texto fuel (TuringPython.fin_string texto texto[i] i)
      else if decide (i < texto.length - 1) && pySlice texto i (i + 2) = ['-', '-'] then
        (pySlice texto i (TuringPython.skip_run (fun d => !(d = '\n' || d = '\r')) texto texto.length i), i) ::
          separar_tokens_sql_aux texto fuel (TuringPython.skip_run (fun d => !(d = '\n' || d = '\r')) texto texto.length i)
      else if decide (i < texto.length - 1) && pySlice texto i (i + 2) = ['/', '*'] then
        (pySlice texto i (fin_bloque texto texto.length (i + 2)), i) ::
          separar_tokens_sql_aux texto fuel (fin_bloque texto texto.length (i + 2))
      else if texto[i] = '@' && decide (i + 1 < texto.length) &&
          ((texto.getD (i + 1) ' ').isAlpha || texto.getD (i + 1) ' ' = '_') then
        (pySlice texto i (TuringPython.skip_run (fun d => d.isAlphanum || d = '_') texto texto.length (i + 1)), i) ::
          separar_tokens_sql_aux texto fuel (TuringPython.skip_run (fun d => d.isAlphanum || d = '_') texto texto.length (i + 1))
      else if ['(', ')', '[', ']', '{', '}', ',', ':', ';', '.'].contains texto[i] then
        ([texto[i]], i) :: separar_tokens_sql_aux texto fuel (i + 1)
      else if opChars.contains texto[i] then
        if decide (i < texto.length - 1) &&
            ["!=".toList, "<>".toList, "<=".toList, ">=".toList, "||".toList,
             "&&".toList, ":=".toList, "+=".toList, "-=".toList, "*=".toList,
             "/=".toList, "::".toList].contains (pySlice texto i (i + 2)) then
          (pySlice texto i (i + 2), i) :: separar_tokens_sql_aux texto fuel (i + 2)
        else ([texto[i]], i) :: separar_tokens_sql_aux texto fuel (i + 1)
      else if (texto[i]).isDigit ||
          (texto[i] = '.' && decide (i + 1 < texto.length) && (texto.getD (i + 1) ' ').isDigit) then
        (pySlice texto i (fin_numero texto i), i) ::
          separar_tokens_sql_aux texto fuel (fin_numero texto i)
      else if (texto[i]).isAlpha || texto[i] = '_' then
        (pySlice texto i (TuringPython.skip_run (fun d => d.isAlphanum || d = '_') texto texto.length i), i) ::
          separar_tokens_sql_aux texto fuel (TuringPython.skip_run (fun d => d.isAlphanum || d = '_') texto texto.length i)
      else
        ([texto[i]], i) :: separar_tokens_sql_aux texto fuel (i + 1)
    else []

/-- `_separar_tokens_sql`: the full scan from position 0. -/
def separar_tokens_sql (texto : List Char) : List (List Char × Nat) :=
  separar_tokens_sql_aux texto texto.length 0

/-- The per-lexeme step of the SQL `tokenizar_archivo`: purely-whitespace
(or empty) lexemes bypass the classifier. -/
def tokenizar_paso (lx : List Char × Nat) : List Token :=
  if (PyStd.strip lx.1).isEmpty then
    if lx.1.isEmpty then [] else [⟨.WHITESPACE, lx.1, lx.2, true⟩]
  else [procesar_token_individual lx.1 lx.2]

/-- `tokenizar_archivo` of `turingSQL.py`. -/
def tokenizar_archivo (contenido : List Char) : List Token :=
  ((separar_tokens_sql contenido).map tokenizar_paso).flatten

end TuringSQL

namespace TuringRacket

/-- `TipoToken` of `turingRacket.py` (adds `SYMBOL`, `CHARACTER`,
`BOOLEAN`, `BUILTIN`, `SPECIAL_FORM`). -/
inductive TipoToken where
  | KEYWORD | STRING | NUMBER | COMMENT | SYMBOL
  | CHARACTER | BOOLEAN | IDENTIFIER | DELIMITER | OPERATOR
  | BUILTIN | SPECIAL_FORM | WHITESPACE | UNKNOWN
  deriving DecidableEq, Repr

/-- `Token` dataclass of `turingRacket.py`. -/
structure Token where
  tipo : TipoToken
  valor : List Char
  posicion : Nat
  valido : Bool
  deriving DecidableEq, Repr

/-- `EstadoMaquina` of `turingRacket.py`. -/
inductive EstadoMaquina where
  | INICIAL | KEYWORD_CANDIDATO | KEYWORD_CONFIRMADO
  | STRING_INICIADO | STRING_ESCAPE | STRING_COMPLETO
  | NUMERO_INICIADO | NUMERO_DECIMAL | NUMERO_FRACCION
  | NUMERO_COMPLEJO | NUMERO_COMPLETO
  | COMENTARIO_LINEA_INICIADO | COMENTARIO_BLOQUE_INICIADO
  | COMENTARIO_BLOQUE_PIPE | COMENTARIO_COMPLETO
  | SIMBOLO_INICIADO | SIMBOLO_COMPLETO
  | CARACTER_LITERAL_INICIADO | CARACTER_LITERAL_COMPLETO
  | BOOLEAN_LITERAL_INICIADO | BOOLEAN_LITERAL_COMPLETO
  | IDENTIFICADOR_INICIADO | IDENTIFICADOR_COMPLETO
  | DELIMITADOR_DETECTADO | ESPACIO_DETECTADO | OPERADOR_DETECTADO
  | NO_ACEPTACION | ACEPTACION
  deriving DecidableEq, Repr

open TuringPython (Accion)

/-- Racket keyword / special-form set (`self.keywords`). -/
def keywords : List (List Char) :=
  ["define".toList, "define-values".toList, "define-syntax".toList,
   "define-struct".toList, "define-macro".toList,
   "define-for-syntax".toList,
   "if".toList, "cond".toList, "case".toList, "when".toList,
   "unless".toList, "and".toList, "or".toList, "not".toList,
   "lambda".toList, "λ".toList, "procedure?".toList, "apply".toList,
   "curry".toList, "compose".toList,
   "let".toList, "let*".toList, "letrec".toList, "let-values".toList,
   "let*-values".toList, "parameterize".toList, "with-handlers".toList,
   "for".toList, "for/list".toList, "for/vector".toList,
   "for/hash".toList, "for/sum".toList, "for/fold".toList,
   "for*".toList, "for*/list".toList, "do".toList, "map".toList,
   "filter".toList, "foldl".toList, "foldr".toList, "andmap".toList,
   "ormap".toList,
   "eval".toList, "compile".toList, "expand".toList, "syntax-e".toList,
   "syntax->datum".toList, "datum->syntax".toList, "quote".toList,
   "quasiquote".toList, "unquote".toList, "unquote-splicing".toList,
   "module".toList, "module*".toList, "module+".toList,
   "require".toList, "provide".toList, "only-in".toList,
   "except-in".toList, "prefix-in".toList, "rename-in".toList,
   "syntax-rules".toList, "syntax-case".toList, "syntax".toList,
   "with-syntax".toList, "syntax-parameter".toList,
   "syntax-parameterize".toList,
   "contract".toList, "define/contract".toList,
   "provide/contract".toList,
   "class".toList, "class*".toList, "interface".toList, "mixin".toList,
   "new".toList, "instantiate".toList, "send".toList, "send*".toList,
   "send/apply".toList, "super".toList, "inner".toList,
   "raise".toList, "raise-argument-error".toList,
   "raise-type-error".toList, "raise-arity-error".toList,
   "raise-syntax-error".toList,
   "call/cc".toList, "call-with-current-continuation".toList,
   "call/ec".toList, "call-with-escape-continuation".toList,
   "with-input-from-file".toList, "with-output-to-file".toList,
   "call-with-input-file".toList, "call-with-output-file".toList,
   "begin".toList, "begin0".toList, "set!".toList, "values".toList,
   "void".toList, "time".toList, "match".toList,
   "match-lambda".toList, "match-let".toList]

/-- Racket built-in function set (`self.builtins`). -/
def builtins : List (List Char) :=
  ["cons".toList, "car".toList, "cdr".toList, "caar".toList,
   "cadr".toList, "cdar".toList, "cddr".toList, "caaar".toList,
   "caadr".toList, "cadar".toList, "caddr".toList, "cdaar".toList,
   "cdadr".toList, "cddar".toList, "cdddr".toList, "list".toList,
   "list*".toList, "append".toList, "reverse".toList, "length".toList,
   "list-ref".toList, "list-tail".toList, "member".toList,
   "memq".toList, "memv".toList, "assoc".toList, "assq".toList,
   "assv".toList, "null?".toList, "pair?".toList, "list?".toList,
   "number?".toList, "complex?".toList, "real?".toList,
   "rational?".toList, "integer?".toList, "exact?".toList,
   "inexact?".toList, "zero?".toList, "positive?".toList,
   "negative?".toList, "odd?".toList, "even?".toList, "max".toList,
   "min".toList, "abs".toList, "quotient".toList, "remainder".toList,
   "modulo".toList, "gcd".toList, "lcm".toList, "numerator".toList,
   "denominator".toList, "floor".toList, "ceiling".toList,
   "truncate".toList, "round".toList, "exp".toList, "log".toList,
   "sin".toList, "cos".toList, "tan".toList, "asin".toList,
   "acos".toList, "atan".toList, "sqrt".toList, "expt".toList,
   "make-rectangular".toList, "make-polar".toList, "real-part".toList,
   "imag-part".toList, "magnitude".toList, "angle".toList,
   "exact->inexact".toList, "inexact->exact".toList,
   "string?".toList, "string-length".toList, "string-ref".toList,
   "string-set!".toList, "string=?".toList, "string<?".toList,
   "string>?".toList, "string<=?".toList, "string>=?".toList,
   "string-ci=?".toList, "string-ci<?".toList, "string-ci>?".toList,
   "string-ci<=?".toList, "string-ci>=?".toList, "substring".toList,
   "string-append".toList, "string->list".toList,
   "list->string".toList, "string-copy".toList, "string-fill!".toList,
   "string->number".toList, "number->string".toList,
   "string->symbol".toList, "symbol->string".toList,
   "string-upcase".toList, "string-downcase".toList,
   "char?".toList, "char=?".toList, "char<?".toList, "char>?".toList,
   "char<=?".toList, "char>=?".toList, "char-ci=?".toList,
   "char-ci<?".toList, "char-ci>?".toList, "char-ci<=?".toList,
   "char-ci>=?".toList, "char-alphabetic?".toList,
   "char-numeric?".toList, "char-whitespace?".toList,
   "char-upper-case?".toList, "char-lower-case?".toList,
   "char->integer".toList, "integer->char".toList,
   "char-upcase".toList, "char-downcase".toList,
   "vector?".toList, "make-vector".toList, "vector".toList,
   "vector-length".toList, "vector-ref".toList, "vector-set!".toList,
   "vector->list".toList, "list->vector".toList,
   "vector-fill!".toList,
   "symbol?".toList, "gensym".toList,
   "boolean?".toList, "not".toList,
   "eq?".toList, "eqv?".toList, "equal?".toList, "procedure?".toList,
   "port?".toList, "input-port?".toList, "output-port?".toList,
   "read".toList, "read-char".toList, "peek-char".toList,
   "eof-object?".toList, "char-ready?".toList, "write".toList,
   "display".toList, "newline".toList, "write-char".toList,
   "load".toList, "open-input-file".toList, "open-output-file".toList,
   "close-input-port".toList, "close-output-port".toList,
   "current-input-port".toList, "current-output-port".toList,
   "error".toList, "with-handlers".toList]

/-- Racket operator set (`self.operadores`), including the word-named
arithmetic operators. -/
def operadores : List (List Char) :=
  ["+".toList, "-".toList, "*".toList, "/".toList, "=".toList,
   "<".toList, ">".toList, "<=".toList, ">=".toList,
   "quotient".toList, "remainder".toList, "modulo".toList,
   "gcd".toList, "lcm".toList]

/-- Racket delimiter set (`self.delimitadores`). -/
def delimitadores : List Char := ['(', ')', '[', ']', '{', '}']

/-- The backquote character of the Racket alphabet, written by code
point. -/
def backtick : Char := Char.ofNat 96

/-- The Racket alphabet (`self.alfabeto`): ASCII letters, digits and
the listed specials (ASCII model of the Python membership tests; the
lambda character is listed explicitly by the identifier predicates). -/
def alfabeto (c : Char) : Bool :=
  c.isAlphanum ||
    ['_', '-', '+', '*', '/', '<', '>', '=', '!', '?', ':', '$', '%',
     '&', '^', '~', '@', '#', '|', '\\', '\'', '"', '(', ')', '[',
     ']', '{', '}', '.', ',', ';', ' ', '\t', '\n', '\r'].contains c ||
    c = backtick

/-- `es_caracter_valido`. -/
def es_caracter_valido (c : Char) : Bool := alfabeto c

/-- `_es_inicio_identificador`. -/
def es_inicio_identificador (c : Char) : Bool :=
  c.isAlpha ||
    ['+', '-', '*', '/', '<', '>', '=', '!', '?', ':', '$', '%', '&',
     '^', '~', '@', '_', 'λ'].contains c

/-- `_es_caracter_identificador`. -/
def es_caracter_identificador (c : Char) : Bool :=
  c.isAlphanum ||
    ['+', '-', '*', '/', '<', '>', '=', '!', '?', ':', '$', '%', '&',
     '^', '~', '@', '_', '-', 'λ'].contains c

/-- `transicion` of `turingRacket.py`. -/
def transicion (estado : EstadoMaquina) (buffer : List Char) (c : Char) :
    EstadoMaquina × Accion :=
  if !es_caracter_valido c then (.NO_ACEPTACION, .RECHAZAR)
  else match estado with
  | .INICIAL =>
    if c = ';' then (.COMENTARIO_LINEA_INICIADO, .LEER)
    else if c = '#' then (.BOOLEAN_LITERAL_INICIADO, .LEER)
    else if c = '\'' then (.SIMBOLO_INICIADO, .LEER)
    else if c = '"' then (.STRING_INICIADO, .LEER)
    else if c.isDigit || c = '+' || c = '-' then (.NUMERO_INICIADO, .LEER)
    else if delimitadores.contains c then (.DELIMITADOR_DETECTADO, .ACEPTAR)
    else if [' ', '\t', '\n', '\r'].contains c then (.ESPACIO_DETECTADO, .ACEPTAR)
    else if es_inicio_identificador c then (.KEYWORD_CANDIDATO, .LEER)
    else (.NO_ACEPTACION, .RECHAZAR)
  | .KEYWORD_CANDIDATO =>
    if es_caracter_identificador c then (.KEYWORD_CANDIDATO, .LEER)
    else if keywords.contains (PyStd.rstrip buffer) then
      (.KEYWORD_CONFIRMADO, .ACEPTAR_RETROCEDER)
    else (.IDENTIFICADOR_COMPLETO, .ACEPTAR_RETROCEDER)
  | .NUMERO_INICIADO =>
    if c.isDigit then (.NUMERO_INICIADO, .LEER)
    else if c = '.' then (.NUMERO_DECIMAL, .LEER)
    else if c = '/' then (.NUMERO_FRACCION, .LEER)
    else if c = 'i' || c = 'I' then (.NUMERO_COMPLEJO, .LEER)
    else (.NUMERO_COMPLETO, .ACEPTAR_RETROCEDER)
  | .NUMERO_DECIMAL =>
    if c.isDigit then (.NUMERO_DECIMAL, .LEER)
    else if c = 'i' || c = 'I' then (.NUMERO_COMPLEJO, .LEER)
    else (.NUMERO_COMPLETO, .ACEPTAR_RETROCEDER)
  | .NUMERO_FRACCION =>
    if c.isDigit then (.NUMERO_FRACCION, .LEER)
    else (.NUMERO_COMPLETO, .ACEPTAR_RETROCEDER)
  | .NUMERO_COMPLEJO => (.NUMERO_COMPLETO, .ACEPTAR)
  | .STRING_INICIADO =>
    if c = '\\' then (.STRING_ESCAPE, .LEER)
    else if c = '"' then (.STRING_COMPLETO, .ACEPTAR)
    else (.STRING_INICIADO, .LEER)
  | .STRING_ESCAPE => (.STRING_INICIADO, .LEER)
  | .COMENTARIO_LINEA_INICIADO =>
    if c = '\n' || c = '\r' then (.COMENTARIO_COMPLETO, .ACEPTAR_RETROCEDER)
    else (.COMENTARIO_LINEA_INICIADO, .LEER)
  | .BOOLEAN_LITERAL_INICIADO =>
    if c = 't' || c = 'f' then (.BOOLEAN_LITERAL_COMPLETO, .ACEPTAR)
    else if c = '\\' then (.CARACTER_LITERAL_INICIADO, .LEER)
    else if c = '|' then (.COMENTARIO_BLOQUE_INICIADO, .LEER)
    else (.NO_ACEPTACION, .RECHAZAR)
  | .CARACTER_LITERAL_INICIADO => (.CARACTER_LITERAL_COMPLETO, .ACEPTAR)
  | .COMENTARIO_BLOQUE_INICIADO =>
    if c = '|' then (.COMENTARIO_BLOQUE_PIPE, .LEER)
    else (.COMENTARIO_BLOQUE_INICIADO, .LEER)
  | .COMENTARIO_BLOQUE_PIPE =>
    if c = '#' then (.COMENTARIO_COMPLETO, .ACEPTAR)
    else if c = '|' then (.COMENTARIO_BLOQUE_PIPE, .LEER)
    else (.COMENTARIO_BLOQUE_INICIADO, .LEER)
  | .SIMBOLO_INICIADO =>
    if es_caracter_identificador c || c = '(' then (.SIMBOLO_INICIADO, .LEER)
    else (.SIMBOLO_COMPLETO, .ACEPTAR_RETROCEDER)
  | _ => (.NO_ACEPTACION, .RECHAZAR)

/-- `_es_numero_racket`: complex suffix, `int/int` fraction, then the
decimal/integer forms (a two-part split whose parts fail `int` is
rejected by the raised `ValueError`, exactly as in the source). -/
def es_numero_racket (texto : List Char) : Bool :=
  if texto.getLast? = some 'i' || texto.getLast? = some 'I' then
    if texto.dropLast.isEmpty then true
    else PyStd.floatAccepts texto.dropLast
  else if texto.contains '/' && !(['/'].isPrefixOf texto) then
    let partes := texto.splitOn '/'
    if partes.length = 2 then
      PyStd.intAccepts10 (partes.getD 0 []) && PyStd.intAccepts10 (partes.getD 1 [])
    else if texto.contains '.' then PyStd.floatAccepts texto
    else PyStd.intAccepts10 texto
  else if texto.contains '.' then PyStd.floatAccepts texto
  else PyStd.intAccepts10 texto

/-- `_es_identificador_valido_racket`. -/
def es_identificador_valido_racket : List Char → Bool
  | [] => false
  | c :: r => es_inicio_identificador c && r.all es_caracter_identificador

/-- Membership of a token text in the Racket delimiter set. -/
def es_delimitador_token : List Char → Bool
  | [c] => delimitadores.contains c
  | _ => false

/-- The `elif` chain mapping an accepting state to a token kind inside
the Racket DFA loop, including the builtin/operator refinement of
`IDENTIFICADOR_COMPLETO`. -/
def clasifica_estado_aceptacion (estado : EstadoMaquina)
    (token_texto : List Char) (posicion : Nat) : Option Token :=
  match estado with
  | .KEYWORD_CONFIRMADO => some ⟨.KEYWORD, token_texto, posicion, true⟩
  | .IDENTIFICADOR_COMPLETO =>
    if builtins.contains token_texto then some ⟨.BUILTIN, token_texto, posicion, true⟩
    else if operadores.contains token_texto then
      some ⟨.OPERATOR, token_texto, posicion, true⟩
    else some ⟨.IDENTIFIER, token_texto, posicion, true⟩
  | .NUMERO_COMPLETO => some ⟨.NUMBER, token_texto, posicion, true⟩
  | .NUMERO_INICIADO => some ⟨.NUMBER, token_texto, posicion, true⟩
  | .NUMERO_COMPLEJO => some ⟨.NUMBER, token_texto, posicion, true⟩
  | .STRING_COMPLETO => some ⟨.STRING, token_texto, posicion, true⟩
  | .COMENTARIO_COMPLETO => some ⟨.COMMENT, token_texto, posicion, true⟩
  | .SIMBOLO_COMPLETO => some ⟨.SYMBOL, token_texto, posicion, true⟩
  | .CARACTER_LITERAL_COMPLETO => some ⟨.CHARACTER, token_texto, posicion, true⟩
  | .BOOLEAN_LITERAL_COMPLETO => some ⟨.BOOLEAN, token_texto, posicion, true⟩
  | .DELIMITADOR_DETECTADO => some ⟨.DELIMITER, token_texto, posicion, true⟩
  | .ESPACIO_DETECTADO => some ⟨.WHITESPACE, token_texto, posicion, true⟩
  | _ => none

/-- The post-loop classification of the Racket
`_procesar_con_maquina_turing` (only `KEYWORD_CANDIDATO` is refined). -/
def clasifica_estado_final (estado : EstadoMaquina) (token_texto : List Char)
    (posicion : Nat) : Token :=
  if estado = .KEYWORD_CANDIDATO then
    if keywords.contains token_texto then ⟨.KEYWORD, token_texto, posicion, true⟩
    else if builtins.contains token_texto then ⟨.BUILTIN, token_texto, posicion, true⟩
    else if operadores.contains token_texto then ⟨.OPERATOR, token_texto, posicion, true⟩
    else ⟨.IDENTIFIER, token_texto, posicion, true⟩
  else ⟨.UNKNOWN, token_texto, posicion, false⟩

/-- The character loop of the Racket `_procesar_con_maquina_turing`. -/
def maquina_loop (token_texto : List Char) (posicion : Nat) :
    List Char → List Char → EstadoMaquina → Token
  | [], _, estado => clasifica_estado_final estado token_texto posicion
  | c :: resto, buffer, estado =>
    let buffer2 := buffer ++ [c]
    let r := transicion estado buffer2 c
    match r.2 with
    | .RECHAZAR => ⟨.UNKNOWN, token_texto, posicion, false⟩
    | .LEER => maquina_loop token_texto posicion resto buffer2 r.1
    | _ =>
      match clasifica_estado_aceptacion r.1 token_texto posicion with
      | some token => token
      | none => clasifica_estado_final estado token_texto posicion

/-- `_procesar_con_maquina_turing` of `turingRacket.py`. -/
def procesar_con_maquina_turing (token_texto : List Char) (posicion : Nat) : Token :=
  maquina_loop token_texto posicion (token_texto ++ [' ']) [] .INICIAL

/-- `procesar_token_individual` of `turingRacket.py`: thirteen ordered
steps. -/
def procesar_token_individual (token_texto : List Char) (posicion : Nat) : Token :=
  if ['"'].isPrefixOf token_texto && ['"'].isSuffixOf token_texto then
    ⟨.STRING, token_texto, posicion, true⟩
  else if [';'].isPrefixOf token_texto ||
      (['#', '|'].isPrefixOf token_texto && ['|', '#'].isSuffixOf token_texto) then
    ⟨.COMMENT, token_texto, posicion, true⟩
  else if ["#t".toList, "#f".toList, "#true".toList, "#false".toList].contains token_texto then
    ⟨.BOOLEAN, token_texto, posicion, true⟩
  else if ['#', '\\'].isPrefixOf token_texto && decide (3 ≤ token_texto.length) then
    ⟨.CHARACTER, token_texto, posicion, true⟩
  else if ['\''].isPrefixOf token_texto then
    ⟨.SYMBOL, token_texto, posicion, true⟩
  else if es_numero_racket token_texto then ⟨.NUMBER, token_texto, posicion, true⟩
  else if es_delimitador_token token_texto then
    ⟨.DELIMITER, token_texto, posicion, true⟩
  else if keywords.contains token_texto then ⟨.KEYWORD, token_texto, posicion, true⟩
  else if builtins.contains token_texto then ⟨.BUILTIN, token_texto, posicion, true⟩
  else if operadores.contains token_texto then ⟨.OPERATOR, token_texto, posicion, true⟩
  else if PyStd.isspace token_texto then ⟨.WHITESPACE, token_texto, posicion, true⟩
  else if es_identificador_valido_racket token_texto then
    ⟨.IDENTIFIER, token_texto, posicion, true⟩
  else procesar_con_maquina_turing token_texto posicion

/-- The `while i < len(texto) - 1` search for the closing pipe-hash of
a Racket block comment (same off-by-one bound as the SQL one). -/
def fin_bloque (texto : List Char) : Nat → Nat → Nat
  | 0, i => i
  | fuel + 1, i =>
    if decide (i < texto.length - 1) then
      if pySlice texto i (i + 2) = ['|', '#'] then i + 2
      else fin_bloque texto fuel (i + 1)
    else i

/-- End of a hash-prefixed literal whose `#` stands at `i`: booleans
with the (strict) `#true`/`#false` lookaheads, character literals with
the `newline`/`space`/`tab` names, transcribing the nested `if`s of the
source verbatim. -/
def fin_hash (texto : List Char) (i : Nat) : Nat :=
  let j := i + 1
  if decide (j < texto.length) then
    if texto.getD j ' ' = 't' || texto.getD j ' ' = 'f' then
      let k := j + 1
      if pySlice texto i k = "#t".toList && decide (k < texto.length - 3) &&
          pySlice texto k (k + 3) = "rue".toList then k + 3
      else if pySlice texto i k = "#f".toList && decide (k < texto.length - 4) &&
          pySlice texto k (k + 4) = "alse".toList then k + 4
      else k
    else if texto.getD j ' ' = '\\' then
      let k := j + 1
      if decide (k < texto.length) then
        if pySlice texto k (k + 7) = "newline".toList then k + 7
        else if pySlice texto k (k + 5) = "space".toList then k + 5
        else if pySlice texto k (k + 3) = "tab".toList then k + 3
        else k + 1
      else k
    else j
  else j

/-- The parenthesis-matching loop inside the quoted-symbol branch
(`nivel_parentesis`), fuelled by the text length. -/
def fin_lista_citada (texto : List Char) : Nat → Nat → Nat → Nat
  | 0, i, _ => i
  | fuel + 1, i, nivel =>
    if decide (i < texto.length) && decide (0 < nivel) then
      let nivel2 :=
        if texto.getD i ' ' = '(' then nivel + 1
        else if texto.getD i ' ' = ')' then nivel - 1
        else nivel
      fin_lista_citada texto fuel (i + 1) nivel2
    else i

/-- The symbol-reading loop after a quote: identifier characters extend
the symbol; an opening parenthesis switches to the matcher and ends the
lexeme. -/
def fin_simbolo (texto : List Char) : Nat → Nat → Nat
  | 0, i => i
  | fuel + 1, i =>
    if decide (i < texto.length) &&
        (es_caracter_identificador (texto.getD i ' ') || texto.getD i ' ' = '(') then
      if texto.getD i ' ' = '(' then fin_lista_citada texto texto.length (i + 1) 1
      else fin_simbolo texto fuel (i + 1)
    else i

/-- End of a Racket number lexeme starting at `i`: optional sign, digit
run, then a decimal or fraction continuation, then the optional complex
suffix. -/
def fin_numero (texto : List Char) (i : Nat) : Nat :=
  let i1 := if texto.getD i ' ' = '+' || texto.getD i ' ' = '-' then i + 1 else i
  let i2 := TuringPython.skip_run Char.isDigit texto texto.length i1
  let i3 :=
    if decide (i2 < texto.length) && texto.getD i2 ' ' = '.' then
      TuringPython.skip_run Char.isDigit texto texto.length (i2 + 1)
    else if decide (i2 < texto.length) && texto.getD i2 ' ' = '/' then
      TuringPython.skip_run Char.isDigit texto texto.length (i2 + 1)
    else i2
  if decide (i3 < texto.length) &&
      (texto.getD i3 ' ' = 'i' || texto.getD i3 ' ' = 'I') then i3 + 1
  else i3

/-- The scanner loop body of `_separar_tokens_racket`, one constructor
application per Python `continue`, fuelled by the text length. -/
def separar_tokens_racket_aux (texto : List Char) : Nat → Nat → List (List Char × Nat)
  | 0, _ => []
  | fuel + 1, i =>
    if h : i < texto.length then
      if texto[i] = ' ' || texto[i] = '\t' then
        (pySlice texto i (TuringPython.skip_run (fun d => d = ' ' || d = '\t') texto texto.length (i + 1)), i) ::
          separar_tokens_racket_aux texto fuel (TuringPython.skip_run (fun d => d = ' ' || d = '\t') texto texto.length (i + 1))
      else if texto[i] = '\n' || texto[i] = '\r' then
        ([texto[i]], i) :: separar_tokens_racket_aux texto fuel (i + 1)
      else if texto[i] = '"' then
        (pySlice texto i (TuringPython.fin_string texto '"' i), i) ::
          separar_tokens_racket_aux texto fuel (TuringPython.fin_string texto '"' i)
      else if texto[i] = ';' then
        (pySlice texto i (TuringPython.skip_run (fun d => !(d = '\n' || d = '\r')) texto texto.length i), i) ::
          separar_tokens_racket_aux texto fuel (TuringPython.skip_run (fun d => !(d = '\n' || d = '\r')) texto texto.length i)
      else if decide (i < texto.length - 1) && pySlice texto i (i + 2) = ['#', '|'] then
        (pySlice texto i (fin_bloque texto texto.length (i + 2)), i) ::
          separar_tokens_racket_aux texto fuel (fin_bloque texto texto.length (i + 2))
      else if texto[i] = '#' then
        (pySlice texto i (fin_hash texto i), i) ::
          separar_tokens_racket_aux texto fuel (fin_hash texto i)
      else if texto[i] = '\'' then
        (pySlice texto i (fin_simbolo texto texto.length (i + 1)), i) ::
          separar_tokens_racket_aux texto fuel (fin_simbolo texto texto.length (i + 1))
      else if delimitadores.contains texto[i] then
        ([texto[i]], i) :: separar_tokens_racket_aux texto fuel (i + 1)
      else if (texto[i]).isDigit ||
          ((texto[i] = '+' || texto[i] = '-') && decide (i + 1 < texto.length) &&
            (texto.getD (i + 1) ' ').isDigit) then
        (pySlice texto i (fin_numero texto i), i) ::
          separar_tokens_racket_aux texto fuel (fin_numero texto i)
      else if es_inicio_identificador texto[i] then
        (pySlice texto i (TuringPython.skip_run es_caracter_identificador texto texto.length i), i) ::
          separar_tokens_racket_aux texto fuel (TuringPython.skip_run es_caracter_identificador texto texto.length i)
      else
        ([texto[i]], i) :: separar_tokens_racket_aux texto fuel (i + 1)
    else []

/-- `_separar_tokens_racket`: the full scan from position 0. -/
def separar_tokens_racket (texto : List Char) : List (List Char × Nat) :=
  separar_tokens_racket_aux texto texto.length 0

/-- The per-lexeme step of the Racket `tokenizar_archivo`. -/
def tokenizar_paso (lx : List Char × Nat) : List Token :=
  if (PyStd.strip lx.1).isEmpty then
    if lx.1.isEmpty then [] else [⟨.WHITESPACE, lx.1, lx.2, true⟩]
  else [procesar_token_individual lx.1 lx.2]

/-- `tokenizar_archivo` of `turingRacket.py`. -/
def tokenizar_archivo (contenido : List Char) : List Token :=
  ((separar_tokens_racket contenido).map tokenizar_paso).flatten

end TuringRacket

namespace TuringPython

theorem le_skip_run (p : Char → Bool) (texto : List Char) :
    ∀ fuel i, i ≤ skip_run p texto fuel i := by
  intro fuel
  induction fuel with
  | zero => intro i; simp [skip_run]
  | succ fuel ih =>
    intro i
    rw [skip_run]
    split_ifs with h hp
    · exact le_trans (Nat.le_succ i) (ih (i + 1))
    · exact le_refl i
    · exact le_refl i

theorem le_scan_string_end (texto : List Char) (quote : Char) :
    ∀ fuel i, i ≤ scan_string_end texto quote fuel i := by
  intro fuel
  induction fuel with
  | zero => intro i; simp [scan_string_end]
  | succ fuel ih =>
    intro i
    rw [scan_string_end]
    split_ifs with h h1 h2 h3
    · exact le_refl i
    · exact le_trans (by omega) (ih (i + 2))
    · exact le_trans (Nat.le_succ i) (ih (i + 1))
    · exact le_trans (Nat.le_succ i) (ih (i + 1))
    · exact le_refl i

theorem lt_fin_string (texto : List Char) (quote : Char) (i : Nat) :
    i < fin_string texto quote i := by
  have h0 := le_scan_string_end texto quote texto.length (i + 1)
  rw [fin_string]
  split_ifs <;> omega

theorem lt_fin_fstring (texto : List Char) (quote : Char) (i : Nat) :
    i < fin_fstring texto quote i := by
  have h0 := le_scan_string_end texto quote texto.length (i + 2)
  rw [fin_fstring]
  split_ifs <;> omega

theorem lt_fin_numero (texto : List Char) (i : Nat) :
    i < fin_numero texto i := by
  have h1 := le_skip_run (fun d => d.isDigit || d = '.') texto texto.length (i + 1)
  have h2 := le_skip_run Char.isDigit texto texto.length
    (skip_run (fun d => d.isDigit || d = '.') texto texto.length (i + 1) + 1)
  have h3 := le_skip_run Char.isDigit texto texto.length
    (skip_run (fun d => d.isDigit || d = '.') texto texto.length (i + 1) + 2)
  rw [fin_numero]
  split_ifs <;> first
    | omega
    | (show i < skip_run Char.isDigit texto texto.length _; omega)

/-- One step of the scanner: for any in-range position the lexeme list
produced with one unit of fuel more is one lexeme `texto[i:j]` (for some
strictly larger end position `j`) followed by the scan from `j`. -/
theorem separar_tokens_aux_succ (texto : List Char) (fuel i : Nat) (h : i < texto.length) :
    ∃ j, i < j ∧ separar_tokens_aux texto (fuel + 1) i =
      (pySlice texto i j, i) :: separar_tokens_aux texto fuel j := by
  have b1 := le_skip_run (fun d => d = ' ' || d = '\t') texto texto.length (i + 1)
  have b2 := lt_fin_string texto texto[i] i
  have b3 := lt_fin_fstring texto (texto.getD (i + 1) ' ') i
  have b4 := le_skip_run (fun d => !(d = '\n' || d = '\r')) texto texto.length (i + 1)
  have b5 := le_skip_run Char.isAlphanum texto texto.length (i + 2)
  have b7 := lt_fin_numero texto i
  have b9 := le_skip_run (fun d => d.isAlphanum || d = '_') texto texto.length (i + 1)
  have hone := pySlice_one texto h
  rw [separar_tokens_aux, dif_pos h]
  by_cases c1 : (texto[i] = ' ' || texto[i] = '\t') = true
  · refine ⟨_, ?_, by rw [if_pos c1]⟩
    omega
  rw [if_neg c1]
  by_cases c2 : (texto[i] = '\n' || texto[i] = '\r') = true
  · exact ⟨i + 1, by omega, by rw [if_pos c2, hone]⟩
  rw [if_neg c2]
  by_cases c3 : (texto[i] = '"' || texto[i] = '\'') = true
  · exact ⟨_, b2, by rw [if_pos c3]⟩
  rw [if_neg c3]
  by_cases c4 : (texto[i] = 'f' && decide (i + 1 < texto.length) &&
      (texto.getD (i + 1) ' ' = '"' || texto.getD (i + 1) ' ' = '\'')) = true
  · exact ⟨_, b3, by rw [if_pos c4]⟩
  rw [if_neg c4]
  by_cases c5 : texto[i] = '#'
  · refine ⟨_, ?_, by rw [if_pos c5]⟩
    omega
  rw [if_neg c5]
  by_cases c6 : delimitadores.contains texto[i] = true
  · exact ⟨i + 1, by omega, by rw [if_pos c6, hone]⟩
  rw [if_neg c6]
  by_cases c7 : opChars.contains texto[i] = true
  · rw [if_pos c7]
    by_cases c8 : (decide (i + 1 < texto.length) &&
        operadores_dobles.contains (pySlice texto i (i + 2))) = true
    · exact ⟨i + 2, by omega, by rw [if_pos c8]⟩
    rw [if_neg c8]
    by_cases c9 : (decide (i + 1 < texto.length) && decide (i + 2 < texto.length) &&
        operadores_triples.contains (pySlice texto i (i + 3))) = true
    · exact ⟨i + 3, by omega, by rw [if_pos c9]⟩
    rw [if_neg c9]
    exact ⟨i + 1, by omega, by rw [hone]⟩
  rw [if_neg c7]
  by_cases c10 : ((texto[i]).isDigit ||
      (texto[i] = '.' && decide (i + 1 < texto.length) &&
        (texto.getD (i + 1) ' ').isDigit)) = true
  · rw [if_pos c10]
    by_cases c11 : (decide (i + 1 < texto.length) && texto[i] = '0' &&
        ['x', 'X', 'o', 'O', 'b', 'B'].contains (texto.getD (i + 1) ' ')) = true
    · refine ⟨_, ?_, by rw [if_pos c11]⟩
      omega
    · exact ⟨_, b7, by rw [if_neg c11]⟩
  rw [if_neg c10]
  by_cases c12 : ((texto[i]).isAlpha || texto[i] = '_') = true
  · refine ⟨_, ?_, by rw [if_pos c12]⟩
    omega
  · exact ⟨i + 1, by omega, by rw [if_neg c12, hone]⟩

theorem separar_tokens_aux_flatten (texto : List Char) :
    ∀ fuel i, texto.length - i ≤ fuel →
      (((separar_tokens_aux texto fuel i).map Prod.fst).flatten : List Char) =
        texto.drop i := by
  intro fuel
  induction fuel with
  | zero =>
    intro i hi
    rw [separar_tokens_aux, List.drop_eq_nil_of_le (by omega)]
    rfl
  | succ fuel ih =>
    intro i hi
    by_cases h : i < texto.length
    · obtain ⟨j, hij, heq⟩ := separar_tokens_aux_succ texto fuel i h
      rw [heq]
      simp only [List.map_cons, List.flatten_cons]
      rw [ih j (by omega)]
      exact pySlice_append_drop texto (le_of_lt hij)
    · rw [separar_tokens_aux, dif_neg h, List.drop_eq_nil_of_le (by omega)]
      rfl

theorem separar_tokens_aux_pos (texto : List Char) :
    ∀ fuel i, ∀ x ∈ separar_tokens_aux texto fuel i, i ≤ x.2 := by
  intro fuel
  induction fuel with
  | zero => intro i x hx; rw [separar_tokens_aux] at hx; simp at hx
  | succ fuel ih =>
    intro i x hx
    by_cases h : i < texto.length
    · obtain ⟨j, hij, heq⟩ := separar_tokens_aux_succ texto fuel i h
      rw [heq] at hx
      rcases List.mem_cons.mp hx with rfl | hx2
      · exact le_refl _
      · have := ih j x hx2
        omega
    · rw [separar_tokens_aux, dif_neg h] at hx
      simp at hx

theorem separar_tokens_aux_pairwise (texto : List Char) :
    ∀ fuel i, (separar_tokens_aux texto fuel i).Pairwise (fun a b => a.2 < b.2) := by
  intro fuel
  induction fuel with
  | zero => intro i; rw [separar_tokens_aux]; exact List.Pairwise.nil
  | succ fuel ih =>
    intro i
    by_cases h : i < texto.length
    · obtain ⟨j, hij, heq⟩ := separar_tokens_aux_succ texto fuel i h
      rw [heq]
      exact List.Pairwise.cons
        (fun y hy => by have := separar_tokens_aux_pos texto fuel j y hy; omega)
        (ih j)
    · rw [separar_tokens_aux, dif_neg h]
      exact List.Pairwise.nil

theorem clasifica_estado_final_valor (estado : EstadoMaquina) (tt : List Char) (p : Nat) :
    (clasifica_estado_final estado tt p).valor = tt := by
  rw [clasifica_estado_final]
  split_ifs <;> rfl

theorem clasifica_estado_final_posicion (estado : EstadoMaquina) (tt : List Char) (p : Nat) :
    (clasifica_estado_final estado tt p).posicion = p := by
  rw [clasifica_estado_final]
  split_ifs <;> rfl

theorem maquina_loop_valor (tt : List Char) (p : Nat) :
    ∀ chars buffer estado, (maquina_loop tt p chars buffer estado).valor = tt := by
  intro chars
  induction chars with
  | nil => intro buffer estado; exact clasifica_estado_final_valor _ _ _
  | cons c resto ih =>
    intro buffer estado
    rw [maquina_loop]
    rcases transicion estado (buffer ++ [c]) c with ⟨e, a⟩
    cases a
    · exact ih _ _
    · cases clasifica_estado_aceptacion e
      · exact clasifica_estado_final_valor _ _ _
      · rfl
    · cases clasifica_estado_aceptacion e
      · exact clasifica_estado_final_valor _ _ _
      · rfl
    · rfl

theorem maquina_loop_posicion (tt : List Char) (p : Nat) :
    ∀ chars buffer estado, (maquina_loop tt p chars buffer estado).posicion = p := by
  intro chars
  induction chars with
  | nil => intro buffer estado; exact clasifica_estado_final_posicion _ _ _
  | cons c resto ih =>
    intro buffer estado
    rw [maquina_loop]
    rcases transicion estado (buffer ++ [c]) c with ⟨e, a⟩
    cases a
    · exact ih _ _
    · cases clasifica_estado_aceptacion e
      · exact clasifica_estado_final_posicion _ _ _
      · rfl
    · cases clasifica_estado_aceptacion e
      · exact clasifica_estado_final_posicion _ _ _
      · rfl
    · rfl

theorem procesar_token_individual_valor (tt : List Char) (p : Nat) :
    (procesar_token_individual tt p).valor = tt := by
  rw [procesar_token_individual]
  split_ifs <;> first
    | rfl
    | exact maquina_loop_valor tt p _ _ _

theorem procesar_token_individual_posicion (tt : List Char) (p : Nat) :
    (procesar_token_individual tt p).posicion = p := by
  rw [procesar_token_individual]
  split_ifs <;> first
    | rfl
    | exact maquina_loop_posicion tt p _ _ _

theorem tokenizar_paso_valor (lx : List Char × Nat) :
    ((tokenizar_paso lx).map Token.valor).flatten = lx.1 := by
  rw [tokenizar_paso]
  split_ifs with h1 h2
  · simp only [List.isEmpty_iff] at h2
    simp [h2]
  · simp
  · simp [procesar_token_individual_valor]

theorem tokenizar_paso_posicion (lx : List Char × Nat) :
    ∀ t ∈ tokenizar_paso lx, t.posicion = lx.2 := by
  rw [tokenizar_paso]
  split_ifs with h1 h2 <;> intro t ht
  · simp at ht
  · simp at ht
    subst ht
    rfl
  · simp at ht
    subst ht
    exact procesar_token_individual_posicion _ _

theorem flatten_paso_valor (lex : List (List Char × Nat)) :
    ((((lex.map tokenizar_paso).flatten).map Token.valor).flatten : List Char) =
      (lex.map Prod.fst).flatten := by
  induction lex with
  | nil => rfl
  | cons lx lex ih =>
    simp only [List.map_cons, List.flatten_cons, List.map_append, List.flatten_append,
      tokenizar_paso_valor, ih]

theorem tokenizar_paso_pairwise (lx : List Char × Nat) :
    (tokenizar_paso lx).Pairwise (fun a b => a.posicion < b.posicion) := by
  rw [tokenizar_paso]
  split_ifs <;> simp

theorem flatten_paso_pairwise (lex : List (List Char × Nat))
    (hpw : lex.Pairwise (fun a b => a.2 < b.2)) :
    ((lex.map tokenizar_paso).flatten).Pairwise (fun a b => a.posicion < b.posicion) := by
  induction lex with
  | nil => exact List.Pairwise.nil
  | cons lx lex ih =>
    rcases hpw with _ | ⟨hx, hpw2⟩
    simp only [List.map_cons, List.flatten_cons]
    refine List.pairwise_append.mpr ⟨tokenizar_paso_pairwise lx, ih hpw2, ?_⟩
    intro a ha b hb
    rcases List.mem_flatten.mp hb with ⟨L, hL, hbL⟩
    rcases List.mem_map.mp hL with ⟨ly, hly, rfl⟩
    have hpa := tokenizar_paso_posicion lx a ha
    have hpb := tokenizar_paso_posicion ly b hbL
    have := hx ly hly
    omega

end TuringPython

/-- C1: Losslessness of the sequential pipeline of `turingPython.py` --
for every input text, the token list produced by `tokenizar_archivo` is
in strictly increasing offset order and concatenating every token's text
in that order reproduces the input exactly. -/
theorem C1_losslessness (texto : List Char) :
    (((TuringPython.tokenizar_archivo texto).map TuringPython.Token.valor).flatten = texto) ∧
    (TuringPython.tokenizar_archivo texto).Pairwise (fun a b => a.posicion < b.posicion) := by
  constructor
  · rw [TuringPython.tokenizar_archivo, TuringPython.flatten_paso_valor,
      TuringPython.separar_tokens,
      TuringPython.separar_tokens_aux_flatten texto texto.length 0 (by omega)]
    rfl
  · exact TuringPython.flatten_paso_pairwise _
      (TuringPython.separar_tokens_aux_pairwise texto texto.length 0)

namespace TuringParalel

open TuringPython (Token)

theorem colocar_length (rs : List (Except String (Nat × List Token))) :
    ∀ slots, (colocar_resultados slots rs).length = slots.length := by
  induction rs with
  | nil => intro slots; rfl
  | cons r rs ih =>
    intro slots
    cases r with
    | error e => exact ih slots
    | ok v =>
      obtain ⟨cid, toks⟩ := v
      rw [show colocar_resultados slots (Except.ok (cid, toks) :: rs) =
        colocar_resultados (slots.set cid (some toks)) rs from rfl, ih]
      exact List.length_set slots cid (some toks)

theorem colocar_no_write (rs : List (Except String (Nat × List Token))) :
    ∀ slots j, (∀ r ∈ rs, okId r ≠ some j) →
      (colocar_resultados slots rs)[j]? = slots[j]? := by
  induction rs with
  | nil => intro slots j _; rfl
  | cons r rs ih =>
    intro slots j hnw
    cases r with
    | error e =>
      exact ih slots j (fun r hr => hnw r (List.mem_cons_of_mem _ hr))
    | ok v =>
      obtain ⟨cid, toks⟩ := v
      have hcid : cid ≠ j := by
        intro heq
        exact hnw (Except.ok (cid, toks)) (List.mem_cons_self _ _) (by rw [heq]; rfl)
      rw [show colocar_resultados slots (Except.ok (cid, toks) :: rs) =
        colocar_resultados (slots.set cid (some toks)) rs from rfl]
      rw [ih _ j (fun r hr => hnw r (List.mem_cons_of_mem _ hr))]
      exact List.getElem?_set_ne hcid

theorem colocar_append (slots : List (Option (List Token)))
    (rs1 rs2 : List (Except String (Nat × List Token))) :
    colocar_resultados slots (rs1 ++ rs2) =
      colocar_resultados (colocar_resultados slots rs1) rs2 :=
  List.foldl_append _ _ _ _

theorem colocar_found (slots : List (Option (List Token)))
    (rs1 rs2 : List (Except String (Nat × List Token))) (j : Nat) (t : List Token)
    (hj : j < slots.length) (hnw : ∀ r ∈ rs2, okId r ≠ some j) :
    (colocar_resultados slots (rs1 ++ Except.ok (j, t) :: rs2))[j]? = some (some t) := by
  rw [colocar_append]
  rw [show colocar_resultados (colocar_resultados slots rs1) (Except.ok (j, t) :: rs2) =
    colocar_resultados ((colocar_resultados slots rs1).set j (some t)) rs2 from rfl]
  rw [colocar_no_write rs2 _ j hnw]
  exact List.getElem?_set_eq_of_lt (some t) (by rw [colocar_length]; exact hj)

theorem colocar_perm (n : Nat) (g : Nat → List Token)
    (rs : List (Except String (Nat × List Token)))
    (hperm : rs.Perm ((List.range n).map (fun i => Except.ok (i, g i)))) :
    colocar_resultados (List.replicate n none) rs =
      (List.range n).map (fun i => some (g i)) := by
  have hcanon : ((List.range n).map
      (fun i => (Except.ok (i, g i) : Except String (Nat × List Token)))).filterMap okId =
      List.range n := by
    rw [List.filterMap_map]
    have : (okId ∘ fun i => (Except.ok (i, g i) : Except String (Nat × List Token))) =
        fun i => some i := by
      funext i
      rfl
    rw [this]
    exact List.filterMap_some _
  have hnodup : (rs.filterMap okId).Nodup := by
    refine (hperm.filterMap okId).nodup_iff.mpr ?_
    rw [hcanon]
    exact List.nodup_range n
  apply List.ext_getElem?
  intro j
  by_cases hj : j < n
  · have hmem : (Except.ok (j, g j) : Except String (Nat × List Token)) ∈ rs :=
      hperm.mem_iff.mpr (List.mem_map.mpr ⟨j, List.mem_range.mpr hj, rfl⟩)
    obtain ⟨rs1, rs2, heqrs⟩ := List.append_of_mem hmem
    have hnw : ∀ r ∈ rs2, okId r ≠ some j := by
      intro r hr heq
      have hmem2 : j ∈ rs2.filterMap okId := List.mem_filterMap.mpr ⟨r, hr, heq⟩
      rw [heqrs, List.filterMap_append] at hnodup
      have h3 := List.Nodup.of_append_right hnodup
      rw [show (Except.ok (j, g j) :: rs2).filterMap okId = j :: rs2.filterMap okId from rfl]
        at h3
      exact (List.nodup_cons.mp h3).1 hmem2
    rw [heqrs, colocar_found _ _ _ _ _ (by simpa using hj) hnw,
      List.getElem?_map, List.getElem?_range hj]
    rfl
  · rw [List.getElem?_eq_none (l := (List.range n).map fun i => some (g i))
      (by simpa using Nat.le_of_not_lt hj)]
    rw [List.getElem?_eq_none]
    rw [colocar_length]
    simpa using Nat.le_of_not_lt hj

theorem concatenar_aux (slots : List (Option (List Token))) :
    ∀ acc, slots.foldl (fun acc o =>
        match o with
        | some ts => if ts.isEmpty then acc else acc ++ ts
        | none => acc) acc =
      acc ++ (slots.map (fun o => o.getD [])).flatten := by
  induction slots with
  | nil => intro acc; simp
  | cons o slots ih =>
    intro acc
    cases o with
    | none => rw [List.foldl_cons, ih]; simp
    | some ts =>
      rw [List.foldl_cons, ih]
      by_cases hts : ts.isEmpty
      · rw [List.isEmpty_iff] at hts
        subst hts
        simp
      · simp only [List.map_cons, List.flatten_cons, Option.getD_some, if_neg hts]
        rw [List.append_assoc]

theorem concatenar_slots_eq (slots : List (Option (List Token))) :
    concatenar_slots slots = (slots.map (fun o => o.getD [])).flatten := by
  rw [concatenar_slots, concatenar_aux slots []]
  rfl

theorem recopilar_perm (n : Nat) (g : Nat → List Token)
    (rs : List (Except String (Nat × List Token)))
    (hperm : rs.Perm ((List.range n).map (fun i => Except.ok (i, g i)))) :
    recopilar n rs = ((List.range n).map g).flatten := by
  rw [recopilar, colocar_perm n g rs hperm, concatenar_slots_eq, List.map_map]
  have : ((fun o => Option.getD o []) ∘ fun i => some (g i)) = g := by
    funext i
    rfl
  rw [this]

end TuringParalel

namespace TuringParalel

open TuringPython (Token)

/-- The chunk width computed by `_dividir_en_chunks` when the lexeme
count is at least the process count:
`max(max(100, total // (2 num_procesos)), total // num_procesos)`. -/
def csize (l : List (List Char × Nat)) (n : Nat) : Nat :=
  max (max 100 (l.length / (n * 2))) (l.length / n)

/-- The end index of chunk `i`: the last index stretches to the end of
the lexeme list, every other one stops at `min ((i+1) * csize) length`. -/
def cfin (l : List (List Char × Nat)) (n i : Nat) : Nat :=
  if i = n - 1 then l.length else min ((i + 1) * csize l n) l.length

/-- The chunk built for a kept index `i` in the `total ≥ num_procesos`
branch of `_dividir_en_chunks`. -/
def mkChunk (l : List (List Char × Nat)) (n i : Nat) : ChunkProcesamiento :=
  let ct := pySlice l (i * csize l n) (cfin l n i)
  ⟨ct, i, (ct.headD ([], 0)).2, (ct.getLastD ([], 0)).2 + (ct.getLastD ([], 0)).1.length⟩

theorem filterMap_ite {α β : Type} (P : α → Prop) [DecidablePred P] (G : α → β)
    (F : α → Option β) (hF : ∀ a, F a = if P a then some (G a) else none) :
    ∀ xs : List α, xs.filterMap F = (xs.filter (fun a => decide (P a))).map G := by
  intro xs
  induction xs with
  | nil => rfl
  | cons x xs ih =>
    by_cases hx : P x
    · rw [List.filterMap_cons_some (h := by rw [hF x, if_pos hx]),
        List.filter_cons_of_pos (by simpa using hx), List.map_cons, ih]
    · rw [List.filterMap_cons_none (h := by rw [hF x, if_neg hx]),
        List.filter_cons_of_neg (by simpa using hx), ih]

theorem filter_range_downward (q : Nat → Bool)
    (hdc : ∀ i j, i ≤ j → q j = true → q i = true) :
    ∀ n, (List.range n).filter q = List.range ((List.range n).filter q).length := by
  intro n
  induction n with
  | zero => rfl
  | succ n ih =>
    rw [List.range_succ, List.filter_append]
    by_cases hq : q n = true
    · have hall : ∀ x ∈ List.range n, q x = true :=
        fun x hx => hdc x n (le_of_lt (List.mem_range.mp hx)) hq
      rw [List.filter_eq_self.mpr hall]
      simp [hq, List.range_succ]
    · conv_lhs => rw [show [n].filter q = [] from by simp [hq], List.append_nil, ih]
      rw [show ([n].filter q) = [] from by simp [hq], List.append_nil]

/-- The number of chunks kept in the `total ≥ num_procesos` branch. -/
def kcount (l : List (List Char × Nat)) (n : Nat) : Nat :=
  ((List.range n).filter (fun i => decide (i * csize l n < l.length))).length

theorem csize_downward (l : List (List Char × Nat)) (n : Nat) :
    ∀ i j, i ≤ j → decide (j * csize l n < l.length) = true →
      decide (i * csize l n < l.length) = true := by
  intro i j hij hqj
  simp only [decide_eq_true_eq] at hqj ⊢
  calc i * csize l n ≤ j * csize l n := Nat.mul_le_mul_right _ hij
    _ < l.length := hqj

theorem dividir_eq_map (l : List (List Char × Nat)) (n : Nat) (hln : n ≤ l.length) :
    dividir_en_chunks l n = (List.range (kcount l n)).map (mkChunk l n) := by
  have h1 : dividir_en_chunks l n =
      (List.range n).filterMap (fun i =>
        if i * csize l n < l.length then some (mkChunk l n i) else none) := by
    rw [dividir_en_chunks, if_neg (by omega)]
    rfl
  rw [h1,
    filterMap_ite (fun i => i * csize l n < l.length) (mkChunk l n) _ (fun a => rfl),
    filter_range_downward _ (csize_downward l n) n]
  rfl

theorem kcount_le (l : List (List Char × Nat)) (n : Nat) : kcount l n ≤ n := by
  have := List.length_filter_le (fun i => decide (i * csize l n < l.length)) (List.range n)
  simpa [kcount] using this

theorem kcount_pos (l : List (List Char × Nat)) (n : Nat) (hn : 1 ≤ n) (hln : n ≤ l.length) :
    1 ≤ kcount l n := by
  have h0 : (0 : Nat) ∈ (List.range n).filter (fun i => decide (i * csize l n < l.length)) := by
    refine List.mem_filter.mpr ⟨List.mem_range.mpr (by omega), by simp; omega⟩
  rw [kcount]
  exact List.length_pos.mpr (fun hnil => by rw [hnil] at h0; exact List.not_mem_nil 0 h0)

theorem kcount_kept (l : List (List Char × Nat)) (n : Nat) {i : Nat} (hi : i < kcount l n) :
    i < n ∧ i * csize l n < l.length := by
  have hmem : i ∈ (List.range n).filter (fun j => decide (j * csize l n < l.length)) := by
    rw [filter_range_downward _ (csize_downward l n)]
    exact List.mem_range.mpr hi
  constructor
  · exact List.mem_range.mp (List.mem_filter.mp hmem).1
  · simpa using (List.mem_filter.mp hmem).2

theorem kcount_end (l : List (List Char × Nat)) (n : Nat) (hn : 1 ≤ n) (hln : n ≤ l.length) :
    cfin l n (kcount l n - 1) = l.length := by
  rw [cfin]
  by_cases hlast : kcount l n - 1 = n - 1
  · rw [if_pos hlast]
  · rw [if_neg hlast]
    have hk1 : kcount l n < n := by
      have := kcount_le l n
      have := kcount_pos l n hn hln
      omega
    have hnk : ¬ (kcount l n * csize l n < l.length) := by
      intro habs
      have hmem : kcount l n ∈
          (List.range n).filter (fun j => decide (j * csize l n < l.length)) :=
        List.mem_filter.mpr ⟨List.mem_range.mpr hk1, by simpa using habs⟩
      rw [filter_range_downward _ (csize_downward l n)] at hmem
      exact absurd (List.mem_range.mp hmem) (lt_irrefl _)
    have hkpos := kcount_pos l n hn hln
    have hstep : (kcount l n - 1 + 1) = kcount l n := by omega
    rw [hstep]
    exact Nat.min_eq_right (by omega)

theorem kcount_mid (l : List (List Char × Nat)) (n : Nat) {i : Nat}
    (hi : i + 1 < kcount l n) :
    cfin l n i = (i + 1) * csize l n := by
  have hkept := kcount_kept l n (show i + 1 < kcount l n from hi)
  have hkle := kcount_le l n
  rw [cfin, if_neg (by omega)]
  exact Nat.min_eq_left (le_of_lt hkept.2)

theorem pySlice_to_end {α : Type} (l : List α) {a b : Nat} (hb : l.length ≤ b) :
    pySlice l a b = l.drop a := by
  rw [pySlice]
  exact List.take_of_length_le (by rw [List.length_drop]; omega)

theorem cover_aux (l : List (List Char × Nat)) (n : Nat) (hn : 1 ≤ n) (hln : n ≤ l.length) :
    ∀ d j, j + d + 1 = kcount l n →
      (((List.range' j (d + 1)).map (fun i => (mkChunk l n i).tokens_texto)).flatten :
        List (List Char × Nat)) = l.drop (j * csize l n) := by
  intro d
  induction d with
  | zero =>
    intro j hj
    have hend : cfin l n j = l.length := by
      have h0 := kcount_end l n hn hln
      rw [show kcount l n - 1 = j from by omega] at h0
      exact h0
    show (mkChunk l n j).tokens_texto ++ List.flatten [] = _
    rw [show (List.flatten [] : List (List Char × Nat)) = [] from rfl, List.append_nil,
      show (mkChunk l n j).tokens_texto = pySlice l (j * csize l n) (cfin l n j) from rfl,
      hend]
    exact pySlice_to_end l (le_refl _)
  | succ d ih =>
    intro j hj
    rw [List.range'_succ]
    simp only [List.map_cons, List.flatten_cons]
    rw [ih (j + 1) (by omega)]
    rw [show (mkChunk l n j).tokens_texto = pySlice l (j * csize l n) (cfin l n j) from rfl]
    rw [kcount_mid l n (show j + 1 < kcount l n from by omega)]
    exact pySlice_append_drop l (Nat.mul_le_mul_right _ (by omega))

theorem flatten_map_singleton {α β : Type} (f : α → β) (xs : List α) :
    ((xs.map (fun x => [f x])).flatten : List β) = xs.map f := by
  induction xs with
  | nil => rfl
  | cons x xs ih => simp [ih]

theorem dividir_flatten (l : List (List Char × Nat)) (n : Nat) (hn : 1 ≤ n) :
    ((dividir_en_chunks l n).map ChunkProcesamiento.tokens_texto).flatten = l := by
  by_cases hln : l.length < n
  · rw [dividir_en_chunks, if_pos hln, List.map_map]
    rw [show (ChunkProcesamiento.tokens_texto ∘ fun p : Nat × (List Char × Nat) =>
        (⟨[p.2], p.1, p.2.2, p.2.2 + p.2.1.length⟩ : ChunkProcesamiento)) =
      (fun p : Nat × (List Char × Nat) => [p.2]) from rfl]
    rw [show (fun p : Nat × (List Char × Nat) => [p.2]) =
      (fun p : Nat × (List Char × Nat) => [Prod.snd p]) from rfl]
    rw [flatten_map_singleton Prod.snd l.enum, List.enum_map_snd]
  · rw [dividir_eq_map l n (by omega), List.map_map]
    have hc := cover_aux l n hn (by omega) (kcount l n - 1) 0
      (by have := kcount_pos l n hn (by omega); omega)
    rw [show kcount l n - 1 + 1 = kcount l n from by
      have := kcount_pos l n hn (by omega); omega] at hc
    rw [show List.range (kcount l n) = List.range' 0 (kcount l n) from
      List.range_eq_range' _]
    simpa using hc

theorem dividir_ids (l : List (List Char × Nat)) (n : Nat) :
    (dividir_en_chunks l n).map ChunkProcesamiento.chunk_id =
      List.range (dividir_en_chunks l n).length := by
  by_cases hln : l.length < n
  · rw [dividir_en_chunks, if_pos hln, List.map_map, List.length_map]
    rw [show (ChunkProcesamiento.chunk_id ∘ fun p : Nat × (List Char × Nat) =>
        (⟨[p.2], p.1, p.2.2, p.2.2 + p.2.1.length⟩ : ChunkProcesamiento)) =
      Prod.fst from rfl]
    rw [List.enum_map_fst, List.enum_length]
  · rw [dividir_eq_map l n (by omega), List.map_map, List.length_map,
      List.length_range]
    rw [show (ChunkProcesamiento.chunk_id ∘ mkChunk l n) = id from rfl]
    rw [List.map_id]

end TuringParalel

namespace TuringParalel

open TuringPython (Token)

theorem range_map_getD {α β : Type} (cs : List α) (F : α → β) (d : β) :
    (List.range cs.length).map (fun i => ((cs[i]?).map F).getD d) = cs.map F := by
  apply List.ext_getElem?
  intro j
  by_cases hj : j < cs.length
  · rw [List.getElem?_map, List.getElem?_range hj, List.getElem?_map,
      List.getElem?_eq_getElem hj]
    simp [List.getElem?_eq_getElem hj]
  · rw [List.getElem?_eq_none (by simpa using Nat.le_of_not_lt hj),
      List.getElem?_eq_none (by simpa using Nat.le_of_not_lt hj)]

/-- The token list of the chunk with id `i` (empty when no such chunk). -/
def gtoks (cs : List ChunkProcesamiento) (i : Nat) : List Token :=
  ((cs[i]?).map
    (fun c => c.tokens_texto.map (fun lx => procesar_token_individual lx.1 lx.2))).getD []

theorem map_ok_eq (cs : List ChunkProcesamiento)
    (hids : cs.map ChunkProcesamiento.chunk_id = List.range cs.length) :
    cs.map (fun ch => (Except.ok (procesar_chunk_multicore ch) :
        Except String (Nat × List Token))) =
      (List.range cs.length).map (fun i => Except.ok (i, gtoks cs i)) := by
  apply List.ext_getElem?
  intro j
  rw [List.getElem?_map, List.getElem?_map]
  by_cases hj : j < cs.length
  · rw [List.getElem?_range hj, List.getElem?_eq_getElem hj]
    show some (Except.ok (procesar_chunk_multicore cs[j])) =
      some (Except.ok (j, gtoks cs j))
    have hid : cs[j].chunk_id = j := by
      have hc := congrArg (fun t => t[j]?) hids
      simp only [List.getElem?_map, List.getElem?_eq_getElem hj,
        List.getElem?_range hj, Option.map_some] at hc
      exact Option.some.inj hc
    have hg : gtoks cs j =
        cs[j].tokens_texto.map (fun lx => procesar_token_individual lx.1 lx.2) := by
      simp only [gtoks, List.getElem?_eq_getElem hj]
      rfl
    rw [hg, show procesar_chunk_multicore cs[j] = (cs[j].chunk_id,
      cs[j].tokens_texto.map (fun lx => procesar_token_individual lx.1 lx.2)) from rfl, hid]
  · rw [List.getElem?_eq_none (by simpa using Nat.le_of_not_lt hj),
      List.getElem?_eq_none (by simpa using Nat.le_of_not_lt hj)]
    rfl

/-- Any run of `tokenizar_archivo_multicore` whose worker results arrive
in any order (any permutation of the chunk list) returns exactly the
sequential classification of the scanner's lexeme list. -/
theorem multicore_eq (contenido : List Char) (n : Nat) (llegada : List ChunkProcesamiento)
    (hn : 1 ≤ n)
    (hperm : llegada.Perm (dividir_en_chunks (separar_tokens contenido) n)) :
    tokenizar_archivo_multicore contenido n llegada =
      (separar_tokens contenido).map (fun lx => procesar_token_individual lx.1 lx.2) := by
  have hids := dividir_ids (separar_tokens contenido) n
  have hcover := dividir_flatten (separar_tokens contenido) n hn
  rw [tokenizar_archivo_multicore]
  have hperm2 : (llegada.map (fun ch => (Except.ok (procesar_chunk_multicore ch) :
      Except String (Nat × List Token)))).Perm
      ((List.range (dividir_en_chunks (separar_tokens contenido) n).length).map
        (fun i => Except.ok (i, gtoks (dividir_en_chunks (separar_tokens contenido) n) i))) := by
    rw [← map_ok_eq _ hids]
    exact hperm.map _
  rw [recopilar_perm _ _ _ hperm2]
  rw [show gtoks (dividir_en_chunks (separar_tokens contenido) n) =
    (fun i => (((dividir_en_chunks (separar_tokens contenido) n)[i]?).map
      (fun c => c.tokens_texto.map (fun lx => procesar_token_individual lx.1 lx.2))).getD [])
    from rfl]
  rw [range_map_getD]
  rw [show (fun c : ChunkProcesamiento =>
      c.tokens_texto.map (fun lx : List Char × Nat => procesar_token_individual lx.1 lx.2)) =
    (List.map (fun lx : List Char × Nat => procesar_token_individual lx.1 lx.2) ∘
      ChunkProcesamiento.tokens_texto) from rfl]
  rw [← List.map_map, ← List.map_flatten, hcover]

theorem set_append_ge {α : Type} (l2 : List α) (a : α) :
    ∀ (l1 : List α) (k : Nat), l1.length ≤ k →
      (l1 ++ l2).set k a = l1 ++ l2.set (k - l1.length) a := by
  intro l1
  induction l1 with
  | nil => intro k hk; simp
  | cons x l1 ih =>
    intro k hk
    cases k with
    | zero => simp at hk
    | succ k =>
      show x :: (l1 ++ l2).set k a = x :: (l1 ++ l2.set (k + 1 - (l1.length + 1)) a)
      rw [ih k (by simpa using hk), show k + 1 - (l1.length + 1) = k - l1.length from by omega]

/-- Filling the slot array with the worker outcomes of chunks `0..n-1`
(in id order): succeeding workers store their tokens, faulted workers
leave `None` in their slot. -/
theorem colocar_canonical (f : Nat → Option (List Token)) :
    ∀ n N, n ≤ N →
      colocar_resultados (List.replicate N none) ((List.range n).map (fun i =>
        match f i with
        | some ts => Except.ok (i, ts)
        | none => Except.error "worker fault")) =
      (List.range n).map f ++ List.replicate (N - n) none := by
  intro n
  induction n with
  | zero =>
    intro N h
    simp only [List.range_zero, List.map_nil, Nat.sub_zero, List.nil_append]
    rfl
  | succ n ih =>
    intro N hN
    rw [List.range_succ, List.map_append, colocar_append, ih N (by omega), List.map_append]
    rcases hf : f n with _ | ts
    · rw [show ([n].map (fun i =>
          match f i with
          | some ts => Except.ok (i, ts)
          | none => (Except.error "worker fault" : Except String (Nat × List Token)))) =
        [Except.error "worker fault"] from by simp [hf]]
      rw [show colocar_resultados ((List.range n).map f ++ List.replicate (N - n) none)
        [Except.error "worker fault"] =
        (List.range n).map f ++ List.replicate (N - n) none from rfl]
      rw [show N - n = (N - (n + 1)) + 1 from by omega, List.replicate_succ,
        show List.map f [n] = [f n] from rfl, hf, List.append_assoc]
      rfl
    · rw [show ([n].map (fun i =>
          match f i with
          | some ts => Except.ok (i, ts)
          | none => (Except.error "worker fault" : Except String (Nat × List Token)))) =
        [Except.ok (n, ts)] from by simp [hf]]
      rw [show colocar_resultados ((List.range n).map f ++ List.replicate (N - n) none)
        [Except.ok (n, ts)] =
        ((List.range n).map f ++ List.replicate (N - n) none).set n (some ts) from rfl]
      rw [set_append_ge _ _ _ _ (by simp)]
      rw [show n - ((List.range n).map f).length = 0 from by simp]
      rw [show N - n = (N - (n + 1)) + 1 from by omega, List.replicate_succ]
      rw [show (((none : Option (List Token)) :: List.replicate (N - (n + 1)) none).set 0
        (some ts)) = some ts :: List.replicate (N - (n + 1)) none from rfl]
      rw [show List.map f [n] = [f n] from rfl, hf, List.append_assoc]
      rfl

end TuringParalel

/-- C3: Parallelism-invariance -- for every input text, every worker
count `n ≥ 1` and every completion order of the workers (any permutation
`llegada` of the chunk list), the multicore pipeline returns the same
token sequence (kinds, texts, offsets, valid flags, in the same order)
as the run with one worker: output order is fixed by chunk id alone,
never by completion order. -/
theorem C3_parallelism_invariance (contenido : List Char) (n : Nat)
    (llegada : List TuringParalel.ChunkProcesamiento) (hn : 1 ≤ n)
    (hperm : llegada.Perm
      (TuringParalel.dividir_en_chunks (TuringParalel.separar_tokens contenido) n)) :
    TuringParalel.tokenizar_archivo_multicore contenido n llegada =
      TuringParalel.tokenizar_archivo_multicore contenido 1
        (TuringParalel.dividir_en_chunks (TuringParalel.separar_tokens contenido) 1) := by
  rw [TuringParalel.multicore_eq contenido n llegada hn hperm,
    TuringParalel.multicore_eq contenido 1 _ (le_refl 1) (List.Perm.refl _)]

/-- Witness for C3 at a concrete input: three lexemes, three one-lexeme
chunks (worker count 5 exceeds the lexeme count), arriving in reversed
completion order. -/
theorem C3_parallelism_invariance_witness :
    TuringParalel.tokenizar_archivo_multicore ['a', ' ', 'b'] 5
      ((TuringParalel.dividir_en_chunks (TuringParalel.separar_tokens ['a', ' ', 'b']) 5).reverse) =
      TuringParalel.tokenizar_archivo_multicore ['a', ' ', 'b'] 1
        (TuringParalel.dividir_en_chunks (TuringParalel.separar_tokens ['a', ' ', 'b']) 1) :=
  C3_parallelism_invariance ['a', ' ', 'b'] 5 _ (by decide)
    (List.reverse_perm _)

/-- C2 (counterexample): with two chunks, where chunk 0 succeeded with
one token and the worker of chunk 1 faulted, the collection loop of
`tokenizar_archivo_multicore` catches the fault and still returns chunk
0's tokens: the completed chunk result is NOT discarded, and a partial
stream silently missing chunk 1 is returned instead of aborting. -/
theorem C2_worker_fault_counterexample :
    TuringParalel.recopilar 2
      [Except.ok (0, [⟨TuringPython.TipoToken.NUMBER, ['1'], 0, true⟩]),
       Except.error "worker fault"] =
      [⟨TuringPython.TipoToken.NUMBER, ['1'], 0, true⟩] ∧
    ([⟨TuringPython.TipoToken.NUMBER, ['1'], 0, true⟩] : List TuringPython.Token) ≠ [] := by
  constructor
  · rfl
  · decide

/-- C2 (amended): on a worker fault the exception is caught and logged,
the run continues, every completed chunk's token list is kept, and each
faulted chunk is silently omitted from the reassembled stream (its slot
stays `None` and the truthiness test of the reassembly skips it). -/
theorem C2_worker_fault_amended (n : Nat) (f : Nat → Option (List TuringPython.Token)) :
    TuringParalel.recopilar n ((List.range n).map (fun i =>
      match f i with
      | some ts => Except.ok (i, ts)
      | none => Except.error "worker fault")) =
      ((List.range n).map (fun i => (f i).getD [])).flatten := by
  rw [TuringParalel.recopilar, TuringParalel.colocar_canonical f n n (le_refl n),
    Nat.sub_self, List.replicate_zero, List.append_nil,
    TuringParalel.concatenar_slots_eq, List.map_map]
  rfl

set_option maxRecDepth 100000 in
/-- C5 (counterexample): with 1000 lexemes and 2 workers the scheduler
computes `chunk_size = max(max(100, 1000 // (2*2)), 1000 // 2) = 500`,
not `max(minimum_floor, total // (2W)) = max(100, 250) = 250` as the
claim states: both chunks hold 500 lexemes. -/
theorem C5_chunk_scheduling_counterexample :
    (TuringParalel.dividir_en_chunks (List.replicate 1000 (['a'], 0)) 2).map
      (fun c => c.tokens_texto.length) = [500, 500] ∧
    max 100 (1000 / (2 * 2)) = 250 ∧ (500 : Nat) ≠ 250 :=
  ⟨by decide, by decide, by decide⟩

/-- C5 (amended): the scheduler degrades to one lexeme per chunk when
`total < W`; otherwise every chunk except the last holds exactly
`chunk_size = max(max(minimum_floor, total // (2W)), total // W)`
lexemes (the extra `max` with `total // W` is what the claim omits), and
the chunks tile the lexeme list, the last chunk absorbing the
remainder. -/
theorem C5_chunk_scheduling_amended (l : List (List Char × Nat)) (n : Nat) (hn : 1 ≤ n) :
    ((TuringParalel.dividir_en_chunks l n).map
        TuringParalel.ChunkProcesamiento.tokens_texto).flatten = l ∧
    (l.length < n → ∀ c ∈ TuringParalel.dividir_en_chunks l n,
      c.tokens_texto.length = 1) ∧
    (n ≤ l.length → ∀ j, j + 1 < (TuringParalel.dividir_en_chunks l n).length →
      ((TuringParalel.dividir_en_chunks l n)[j]?).map (fun c => c.tokens_texto.length) =
        some (max (max 100 (l.length / (n * 2))) (l.length / n))) := by
  refine ⟨TuringParalel.dividir_flatten l n hn, ?_, ?_⟩
  · intro hln c hc
    rw [TuringParalel.dividir_en_chunks, if_pos hln] at hc
    rcases List.mem_map.mp hc with ⟨p, hp, rfl⟩
    rfl
  · intro hln j hj
    rw [TuringParalel.dividir_eq_map l n hln] at hj ⊢
    rw [List.length_map, List.length_range] at hj
    rw [List.getElem?_map, List.getElem?_range (by omega)]
    show some ((TuringParalel.mkChunk l n j).tokens_texto.length) = _
    rw [show (TuringParalel.mkChunk l n j).tokens_texto =
      pySlice l (j * TuringParalel.csize l n) (TuringParalel.cfin l n j) from rfl]
    rw [TuringParalel.kcount_mid l n (show j + 1 < TuringParalel.kcount l n from hj)]
    rw [pySlice, List.length_take, List.length_drop]
    have hq := (TuringParalel.kcount_kept l n
      (show j + 1 < TuringParalel.kcount l n from hj)).2
    have hsm : (j + 1) * TuringParalel.csize l n =
        j * TuringParalel.csize l n + TuringParalel.csize l n := Nat.succ_mul j _
    show some _ = some (TuringParalel.csize l n)
    congr 1
    omega

/-- Witness for C5's amended theorem: five lexemes over two workers give
one chunk of width `max(max(100, 1), 2) = 100` clipped to the whole
list; the tiling clause evaluated there. -/
theorem C5_chunk_scheduling_amended_witness :
    ((TuringParalel.dividir_en_chunks (List.replicate 5 (['a'], 0)) 2).map
        TuringParalel.ChunkProcesamiento.tokens_texto).flatten =
      List.replicate 5 (['a'], 0) :=
  (C5_chunk_scheduling_amended (List.replicate 5 (['a'], 0)) 2 (by decide)).1

theorem bool_false_ne_true : ¬(false = true) := by decide

namespace PyStd

theorem dropWhile_append_singleton {c : Char} (p : Char → Bool) (hc : p c = false) :
    ∀ u : List Char, ∃ t, (u ++ [c]).dropWhile p = t ++ [c] := by
  intro u
  induction u with
  | nil =>
    refine ⟨[], ?_⟩
    rw [List.nil_append, List.dropWhile_cons_of_neg (by simp [hc])]
  | cons a u ih =>
    by_cases ha : p a = true
    · obtain ⟨t, ht⟩ := ih
      refine ⟨t, ?_⟩
      rw [List.cons_append, List.dropWhile_cons_of_pos ha, ht]
    · refine ⟨a :: u, ?_⟩
      rw [List.cons_append, List.dropWhile_cons_of_neg ha]

theorem strip_cons_not_space (c : Char) (hc : isSpaceChar c = false) (l : List Char) :
    ∃ t, strip (c :: l) = c :: t := by
  rw [strip, List.dropWhile_cons_of_neg (by simp [hc]), List.reverse_cons]
  obtain ⟨t, ht⟩ := dropWhile_append_singleton isSpaceChar hc l.reverse
  refine ⟨t.reverse, ?_⟩
  rw [ht, List.reverse_append]
  rfl

theorem digRun_head_false (isD : Char → Bool) (c : Char) (hc : isD c = false)
    (t : List Char) : digRun isD (c :: t) = false := by
  rw [show digRun isD (c :: t) = (isD c && digRunAux isD t) from rfl, hc, Bool.false_and]

theorem floatMantissa_quote (t : List Char) : floatMantissa ('"' :: t) = false := by
  simp only [floatMantissa]
  rw [List.dropWhile_cons_of_pos (by decide)]
  cases t.dropWhile (fun c => ((c ≠ '.') : Bool)) with
  | nil => rfl
  | cons x rest => rfl

theorem floatAccepts_quote (resto : List Char) : floatAccepts ('"' :: resto) = false := by
  obtain ⟨t, ht⟩ := strip_cons_not_space '"' (by decide) resto
  simp only [floatAccepts]
  rw [ht]
  rw [show dropSign ('"' :: t) = '"' :: t from rfl]
  split
  next h => exact absurd h bool_false_ne_true
  next _ =>
    rw [List.dropWhile_cons_of_pos (by decide)]
    cases t.dropWhile (fun c => ((c ≠ 'e') : Bool) && ((c ≠ 'E') : Bool)) with
    | nil => exact floatMantissa_quote _
    | cons x rest =>
      show (floatMantissa (('"' :: t).takeWhile (fun c => ((c ≠ 'e') : Bool) && ((c ≠ 'E') : Bool))) &&
        digRun Char.isDigit (dropSign rest)) = false
      rw [List.takeWhile_cons_of_pos (by decide), floatMantissa_quote, Bool.false_and]

theorem intAccepts0_quote (resto : List Char) : intAccepts0 ('"' :: resto) = false := by
  obtain ⟨t, ht⟩ := strip_cons_not_space '"' (by decide) resto
  rw [intAccepts0, ht]
  rfl

end PyStd

namespace TuringPython

theorem es_numero_quote (resto : List Char) : es_numero ('"' :: resto) = false := by
  rw [es_numero]
  split_ifs with hc
  · exact PyStd.floatAccepts_quote resto
  · exact PyStd.intAccepts0_quote resto

theorem isPrefixOf_nil (l : List Char) : List.isPrefixOf ([] : List Char) l = true := by
  cases l <;> rfl

theorem endswith_quote_false (L : List Char) (b : Char) (hb : b ≠ '"') :
    (['"'].isSuffixOf ('"' :: (L ++ [b]))) = false := by
  rw [show (['"'].isSuffixOf ('"' :: (L ++ [b]))) =
    List.isPrefixOf ['"'] ('"' :: (L ++ [b])).reverse from rfl]
  rw [List.reverse_cons, List.reverse_append]
  show (('"' == b) && List.isPrefixOf [] (L.reverse ++ ['"'])) = false
  have hbeq : ('"' == b) = false := by simp [Ne.symm hb]
  rw [hbeq, Bool.false_and]

theorem transicion_string (buffer : List Char) {c : Char} (ha : alfabeto c = true)
    (hbs : c ≠ '\\') (hq1 : c ≠ '"') (hq2 : c ≠ '\'') :
    transicion .STRING_INICIADO buffer c = (.STRING_INICIADO, .LEER) := by
  show (if (!es_caracter_valido c) = true then (EstadoMaquina.NO_ACEPTACION, Accion.RECHAZAR)
    else if c = '\\' then (EstadoMaquina.STRING_ESCAPE, Accion.LEER)
    else if (c = '"' || c = '\'') = true then (EstadoMaquina.STRING_COMPLETO, Accion.ACEPTAR)
    else (EstadoMaquina.STRING_INICIADO, Accion.LEER)) =
    (EstadoMaquina.STRING_INICIADO, Accion.LEER)
  rw [es_caracter_valido, ha, Bool.not_true]
  rw [if_neg bool_false_ne_true, if_neg hbs,
    if_neg (show ¬((c = '"' || c = '\'') = true) by simp [hq1, hq2])]

theorem maquina_string_run (tt : List Char) (p : Nat) :
    ∀ resto buffer, (∀ c ∈ resto, alfabeto c = true ∧ c ≠ '"' ∧ c ≠ '\'' ∧ c ≠ '\\') →
      maquina_loop tt p (resto ++ [' ']) buffer .STRING_INICIADO =
        ⟨.UNKNOWN, tt, p, false⟩ := by
  intro resto
  induction resto with
  | nil =>
    intro buffer _
    rfl
  | cons c resto ih =>
    intro buffer hres
    have hc := hres c (List.mem_cons_self c resto)
    rw [show ((c :: resto) ++ [' ']) = c :: (resto ++ [' ']) from rfl]
    simp only [maquina_loop]
    rw [transicion_string (buffer ++ [c]) hc.1 hc.2.2.2 hc.2.1 hc.2.2.1]
    exact ih (buffer ++ [c]) (fun d hd => hres d (List.mem_cons_of_mem c hd))

theorem procesar_maquina_unterminated (resto : List Char) (p : Nat)
    (hres : ∀ c ∈ resto, alfabeto c = true ∧ c ≠ '"' ∧ c ≠ '\'' ∧ c ≠ '\\') :
    procesar_con_maquina_turing ('"' :: resto) p =
      ⟨.UNKNOWN, '"' :: resto, p, false⟩ := by
  rw [procesar_con_maquina_turing]
  rw [show (('"' :: resto) ++ [' ']) = '"' :: (resto ++ [' ']) from rfl]
  rw [show maquina_loop ('"' :: resto) p ('"' :: (resto ++ [' '])) [] .INICIAL =
    maquina_loop ('"' :: resto) p (resto ++ [' ']) ['"'] .STRING_INICIADO from rfl]
  exact maquina_string_run _ p resto ['"'] hres

theorem procesar_unterminated (r0 : Char) (rrest : List Char) (p : Nat)
    (hres : ∀ c ∈ r0 :: rrest, alfabeto c = true ∧ c ≠ '"' ∧ c ≠ '\'' ∧ c ≠ '\\') :
    procesar_token_individual ('"' :: r0 :: rrest) p =
      ⟨.UNKNOWN, '"' :: r0 :: rrest, p, false⟩ := by
  obtain ⟨L, b, hLb⟩ := (List.eq_nil_or_concat (r0 :: rrest)).resolve_left (by simp)
  rw [List.concat_eq_append] at hLb
  have hb : b ≠ '"' := by
    refine (hres b ?_).2.1
    rw [hLb]
    exact List.mem_append_right L (List.mem_singleton_self b)
  rw [procesar_token_individual]
  split_ifs with h1 h2 h3 h4 h5 h6 h7 h8
  · rw [hLb, endswith_quote_false L b hb] at h1
    have hp1 : (['"'].isPrefixOf ('"' :: (L ++ [b]))) = true := by
      show (('"' == '"') && List.isPrefixOf [] (L ++ [b])) = true
      rw [isPrefixOf_nil]
      decide
    rw [hp1] at h1
    exact absurd h1 bool_false_ne_true
  · exact absurd h2 bool_false_ne_true
  · rw [es_numero_quote (r0 :: rrest)] at h3
    exact absurd h3 bool_false_ne_true
  · exact absurd h4 bool_false_ne_true
  · exact absurd h5 bool_false_ne_true
  · exact absurd h6 bool_false_ne_true
  · exact absurd h7 bool_false_ne_true
  · exact absurd h8 bool_false_ne_true
  · exact procesar_maquina_unterminated (r0 :: rrest) p hres

theorem scan_string_end_full (texto : List Char) (quote : Char)
    (hnotin : ∀ k, 1 ≤ k → ∀ hk : k < texto.length, texto[k] ≠ quote ∧ texto[k] ≠ '\\') :
    ∀ fuel i, 1 ≤ i → texto.length - i ≤ fuel → i ≤ texto.length →
      scan_string_end texto quote fuel i = texto.length := by
  intro fuel
  induction fuel with
  | zero =>
    intro i h1 h2 h3
    rw [scan_string_end]
    omega
  | succ fuel ih =>
    intro i h1 h2 h3
    rw [scan_string_end]
    by_cases h : i < texto.length
    · rw [dif_pos h]
      have hk := hnotin i h1 h
      rw [if_neg hk.1, if_neg hk.2]
      exact ih (i + 1) (by omega) (by omega) (by omega)
    · rw [dif_neg h]
      omega

theorem separar_tokens_aux_end (texto : List Char) :
    ∀ fuel i, texto.length ≤ i → separar_tokens_aux texto fuel i = [] := by
  intro fuel i h
  cases fuel with
  | zero => rfl
  | succ fuel => rw [separar_tokens_aux, dif_neg (by omega)]

theorem separar_unterminated (resto : List Char)
    (hres : ∀ c ∈ resto, c ≠ '"' ∧ c ≠ '\\') :
    separar_tokens ('"' :: resto) = [('"' :: resto, 0)] := by
  have hlen : ('"' :: resto).length = resto.length + 1 := rfl
  rw [separar_tokens, hlen, separar_tokens_aux, dif_pos (by simp)]
  have h0 : ('"' :: resto)[0] = '"' := rfl
  rw [if_neg (by rw [h0]; decide), if_neg (by rw [h0]; decide), if_pos (by rw [h0]; decide)]
  rw [h0]
  have hscan : scan_string_end ('"' :: resto) '"' ('"' :: resto).length (0 + 1) =
      ('"' :: resto).length := by
    refine scan_string_end_full _ _ ?_ _ (0 + 1) (by omega) (by omega) (by rw [hlen]; omega)
    intro k hk1 hk
    rcases k with _ | m
    · omega
    · have hm2 : m < resto.length := by
        rw [hlen] at hk
        omega
      have hm : ('"' :: resto)[m + 1] = resto[m] := rfl
      rw [hm]
      exact hres resto[m] (List.getElem_mem hm2)
  have hfin : fin_string ('"' :: resto) '"' 0 = ('"' :: resto).length := by
    simp only [fin_string]
    rw [hscan, if_neg (lt_irrefl _)]
  rw [hfin]
  rw [separar_tokens_aux_end _ _ _ (le_refl _)]
  rw [TuringParalel.pySlice_to_end _ (le_refl _), List.drop_zero]

theorem tokenizar_unterminated (r0 : Char) (rrest : List Char)
    (hres : ∀ c ∈ r0 :: rrest, alfabeto c = true ∧ c ≠ '"' ∧ c ≠ '\'' ∧ c ≠ '\\') :
    tokenizar_archivo ('"' :: r0 :: rrest) =
      [⟨.UNKNOWN, '"' :: r0 :: rrest, 0, false⟩] := by
  have hsep : separar_tokens ('"' :: r0 :: rrest) = [('"' :: r0 :: rrest, 0)] :=
    separar_unterminated (r0 :: rrest) (fun c hc => ⟨(hres c hc).2.1, (hres c hc).2.2.2⟩)
  obtain ⟨t, ht⟩ := PyStd.strip_cons_not_space '"' (by decide) (r0 :: rrest)
  rw [tokenizar_archivo, hsep]
  simp only [List.map_cons, List.map_nil, List.flatten_cons, List.flatten_nil,
    List.append_nil]
  simp only [tokenizar_paso]
  rw [ht, show List.isEmpty ('"' :: t) = false from rfl, if_neg bool_false_ne_true]
  rw [procesar_unterminated r0 rrest 0 hres]

end TuringPython

/-- C4, counterexample: under the SQL profile the input three-equals is
scanned as three one-character lexemes (three OPERATOR tokens of text
equals-sign), not as the two-character lexeme followed by the
one-character one announced by the spec. -/
theorem C4_maximal_munch_counterexample :
    TuringSQL.tokenizar_archivo "===".toList =
      [⟨TuringSQL.TipoToken.OPERATOR, "=".toList, 0, true⟩,
       ⟨TuringSQL.TipoToken.OPERATOR, "=".toList, 1, true⟩,
       ⟨TuringSQL.TipoToken.OPERATOR, "=".toList, 2, true⟩] ∧
    TuringSQL.separar_tokens_sql "===".toList ≠
      [("==".toList, 0), ("=".toList, 2)] := by
  exact ⟨by decide, by decide⟩

/-- C4, amended: at an operator start the scanners try a fixed
two-character candidate list first (the Python scanner consults its
three-character list only after the two-character one, and the SQL
scanner has no three-character list at all); a listed two-character
candidate such as the SQL less-or-equal still beats the one-character
match, the Python floor-division-assign scans as floor-division then
assign, and the SQL three-equals input — whose two-character list does
not contain double-equals — scans as three single equals signs. -/
theorem C4_maximal_munch_amended :
    TuringPython.tokenizar_archivo "//=".toList =
      [⟨TuringPython.TipoToken.OPERATOR, "//".toList, 0, true⟩,
       ⟨TuringPython.TipoToken.OPERATOR, "=".toList, 2, true⟩] ∧
    TuringPython.tokenizar_archivo "<<=".toList =
      [⟨TuringPython.TipoToken.OPERATOR, "<<".toList, 0, true⟩,
       ⟨TuringPython.TipoToken.OPERATOR, "=".toList, 2, true⟩] ∧
    TuringSQL.tokenizar_archivo "<=".toList =
      [⟨TuringSQL.TipoToken.OPERATOR, "<=".toList, 0, true⟩] ∧
    TuringSQL.tokenizar_archivo "===".toList =
      [⟨TuringSQL.TipoToken.OPERATOR, "=".toList, 0, true⟩,
       ⟨TuringSQL.TipoToken.OPERATOR, "=".toList, 1, true⟩,
       ⟨TuringSQL.TipoToken.OPERATOR, "=".toList, 2, true⟩] := by
  exact ⟨by decide, by decide, by decide, by decide⟩

/-- C6, counterexample: the unterminated string lexeme made of a double
quote and the letters a, b, c is emitted as a single token flagged
invalid, but its kind is UNKNOWN — not the best-guess STRING (nor
COMMENT) kind announced by the spec. -/
theorem C6_unterminated_literal_counterexample :
    (TuringPython.procesar_token_individual ['"', 'a', 'b', 'c'] 0).tipo =
      TuringPython.TipoToken.UNKNOWN ∧
    (TuringPython.procesar_token_individual ['"', 'a', 'b', 'c'] 0).valido = false ∧
    TuringPython.TipoToken.UNKNOWN ≠ TuringPython.TipoToken.STRING ∧
    TuringPython.TipoToken.UNKNOWN ≠ TuringPython.TipoToken.COMMENT := by
  exact ⟨by decide, by decide, by decide, by decide⟩

/-- C6, amended: a double-quoted string lexeme lacking its closing quote
at end-of-input is still emitted as exactly one token spanning to
end-of-input and the run is not aborted, but no best-guess kind with the
valid flag false is assigned: when every body character is in the
alphabet and is neither a double quote, a single quote nor a backslash,
the DFA fallback is still inside its string states at end-of-input and
the token is UNKNOWN with the valid flag false; a body containing a
quote of the other kind can instead be accepted outright — the DFA's
string state accepts on any quote character — giving a STRING token
with the valid flag true. -/
theorem C6_unterminated_literal_amended :
    (∀ (r0 : Char) (rrest : List Char),
      (∀ c ∈ r0 :: rrest, TuringPython.alfabeto c = true ∧ c ≠ '"' ∧
        c ≠ '\'' ∧ c ≠ '\\') →
      TuringPython.tokenizar_archivo ('"' :: r0 :: rrest) =
        [⟨TuringPython.TipoToken.UNKNOWN, '"' :: r0 :: rrest, 0, false⟩]) ∧
    TuringPython.tokenizar_archivo ['"', 'a', 'b', '\''] =
      [⟨TuringPython.TipoToken.STRING, ['"', 'a', 'b', '\''], 0, true⟩] := by
  refine ⟨fun r0 rrest hres => TuringPython.tokenizar_unterminated r0 rrest hres, ?_⟩
  decide

theorem C6_unterminated_literal_amended_witness :
    TuringPython.tokenizar_archivo ['"', 'x', 'y'] =
      [⟨TuringPython.TipoToken.UNKNOWN, ['"', 'x', 'y'], 0, false⟩] :=
  C6_unterminated_literal_amended.1 'x' ['y'] (by decide)

/-- C7: the input made of a double quote followed by a, b, c (no closing
quote) yields exactly one token, spanning from the quote to end-of-input,
with the valid flag false. -/
theorem C7_unterminated_string_token :
    TuringPython.tokenizar_archivo ['"', 'a', 'b', 'c'] =
      [⟨TuringPython.TipoToken.UNKNOWN, ['"', 'a', 'b', 'c'], 0, false⟩] := by
  decide

/-- C8: the lexeme Select is classified KEYWORD by the SQL pipeline
(keyword lookup maps the text to uppercase first) and IDENTIFIER by the
Python pipeline (exact-match keyword lookup). -/
theorem C8_keyword_case_rule :
    TuringSQL.tokenizar_archivo "Select".toList =
      [⟨TuringSQL.TipoToken.KEYWORD, "Select".toList, 0, true⟩] ∧
    TuringPython.tokenizar_archivo "Select".toList =
      [⟨TuringPython.TipoToken.IDENTIFIER, "Select".toList, 0, true⟩] := by
  exact ⟨by decide, by decide⟩

/-- C9: the hex literal 0x1A is one NUMBER token under the Python
profile; 3/4 is one NUMBER token under the fraction-supporting Racket
profile, and NUMBER 3, OPERATOR slash, NUMBER 4 under the Python and SQL
profiles. -/
theorem C9_numeric_grammar :
    TuringPython.tokenizar_archivo "0x1A".toList =
      [⟨TuringPython.TipoToken.NUMBER, "0x1A".toList, 0, true⟩] ∧
    TuringRacket.tokenizar_archivo "3/4".toList =
      [⟨TuringRacket.TipoToken.NUMBER, "3/4".toList, 0, true⟩] ∧
    TuringPython.tokenizar_archivo "3/4".toList =
      [⟨TuringPython.TipoToken.NUMBER, "3".toList, 0, true⟩,
       ⟨TuringPython.TipoToken.OPERATOR, "/".toList, 1, true⟩,
       ⟨TuringPython.TipoToken.NUMBER, "4".toList, 2, true⟩] ∧
    TuringSQL.tokenizar_archivo "3/4".toList =
      [⟨TuringSQL.TipoToken.NUMBER, "3".toList, 0, true⟩,
       ⟨TuringSQL.TipoToken.OPERATOR, "/".toList, 1, true⟩,
       ⟨TuringSQL.TipoToken.NUMBER, "4".toList, 2, true⟩] := by
  exact ⟨by decide, by decide, by decide, by decide⟩

/-- C10: the multicore worker classifier has no state-machine fallback —
whenever no fast-path predicate matches it returns an UNKNOWN token with
the valid flag false directly, while the sequential classifier replays
exactly those lexemes through the DFA; on the lexeme 123abc the two
classifiers therefore disagree (NUMBER and valid against UNKNOWN and
invalid). -/
theorem C10_parallel_classifier_no_dfa :
    (∀ (s : List Char) (p : Nat), TuringPython.fast_path_predicado s = false →
      TuringParalel.procesar_token_individual s p =
        ⟨TuringPython.TipoToken.UNKNOWN, s, p, false⟩) ∧
    (∀ (s : List Char) (p : Nat), TuringPython.fast_path_predicado s = false →
      TuringPython.procesar_token_individual s p =
        TuringPython.procesar_con_maquina_turing s p) ∧
    TuringPython.procesar_token_individual "123abc".toList 0 =
      ⟨TuringPython.TipoToken.NUMBER, "123abc".toList, 0, true⟩ ∧
    TuringParalel.procesar_token_individual "123abc".toList 0 =
      ⟨TuringPython.TipoToken.UNKNOWN, "123abc".toList, 0, false⟩ := by
  refine ⟨?_, ?_, by decide, by decide⟩
  · intro s p hfp
    rw [TuringPython.fast_path_predicado] at hfp
    simp only [Bool.or_eq_false_iff] at hfp
    obtain ⟨⟨⟨⟨⟨⟨⟨⟨⟨⟨h1a, h1b⟩, h1c⟩, h1d⟩, h2⟩, h3⟩, h4⟩, h5⟩, h6⟩, h7⟩, h8⟩ := hfp
    rw [TuringParalel.procesar_token_individual]
    rw [h1a, h1b, h1c, h1d,
      if_neg (show ¬((false || false || false || false : Bool) = true) by decide)]
    rw [h2, if_neg bool_false_ne_true]
    rw [TuringParalel.es_numero, h3, if_neg bool_false_ne_true]
    rw [TuringParalel.operadores, h4, if_neg bool_false_ne_true]
    rw [h5, if_neg bool_false_ne_true]
    rw [TuringParalel.keywords, h6, if_neg bool_false_ne_true]
    rw [h7, if_neg bool_false_ne_true]
    rw [TuringParalel.es_identificador_valido, h8, if_neg bool_false_ne_true]
  · intro s p hfp
    rw [TuringPython.fast_path_predicado] at hfp
    simp only [Bool.or_eq_false_iff] at hfp
    obtain ⟨⟨⟨⟨⟨⟨⟨⟨⟨⟨h1a, h1b⟩, h1c⟩, h1d⟩, h2⟩, h3⟩, h4⟩, h5⟩, h6⟩, h7⟩, h8⟩ := hfp
    rw [TuringPython.procesar_token_individual]
    rw [h1a, h1b, h1c, h1d,
      if_neg (show ¬((false || false || false || false : Bool) = true) by decide)]
    rw [h2, if_neg bool_false_ne_true]
    rw [h3, if_neg bool_false_ne_true]
    rw [h4, if_neg bool_false_ne_true]
    rw [h5, if_neg bool_false_ne_true]
    rw [h6, if_neg bool_false_ne_true]
    rw [h7, if_neg bool_false_ne_true]
    rw [h8, if_neg bool_false_ne_true]

theorem C10_parallel_classifier_no_dfa_witness :
    TuringPython.fast_path_predicado ['$'] = false ∧
    TuringParalel.procesar_token_individual ['$'] 0 =
      ⟨TuringPython.TipoToken.UNKNOWN, ['$'], 0, false⟩ :=
  ⟨by decide, C10_parallel_classifier_no_dfa.1 ['$'] 0 (by decide)⟩
